import Mathlib

/-!
Shallow embedding of the thread-auto publishing pipeline
(`src/thread_formatter.py`, `src/ai_analyzer.py`) and verification of the
specification's claims about it.

Network interaction is modelled by an oracle `Nat → HttpResp` giving the
response to the n-th HTTP request of a run; the chain publisher is a
state-passing interpreter that also records the trace of requests it issues,
so that ordering and parameter claims can be stated about the trace.
-/

namespace ThreadAuto

/-! ## Python value model (for `validate_content`, which receives a raw dict) -/

/-- Dynamically typed Python value, as far as `validate_content` inspects it. -/
inductive PyVal where
  | str (s : String)
  | int (n : Int)
  | bool (b : Bool)
  | list (xs : List PyVal)
  | pyNone

/-- A Python dict with string keys, as an association list (first binding wins,
matching dict-key uniqueness). -/
abbrev PyDict := List (String × PyVal)

/-- Python `d.get(k)` / `k in d`. -/
def pyGet (d : PyDict) (k : String) : Option PyVal :=
  match d with
  | [] => Option.none
  | (k2, v) :: rest => if k2 = k then some v else pyGet rest k

/-- Python `isinstance(v, list)`. -/
def isPyList : PyVal → Bool
  | .list _ => true
  | _ => false

/-- Python `v == s` for a string literal `s`: true exactly when `v` is the
same string (values of other types never compare equal to a string). -/
def pyEqStr (v : PyVal) (s : String) : Bool :=
  match v with
  | .str s2 => s2 == s
  | _ => false

/-- Embedding of `ai_analyzer.validate_content` (src/ai_analyzer.py lines
346-369): an empty/absent content dict is modelled as `[]`, since both are
falsy for Python `if not content`. -/
def validate_content (content : PyDict) : Bool :=
  if content.isEmpty then false
  else if (pyGet content "type").isNone ∨ (pyGet content "main_post").isNone then false
  else
    let t := (pyGet content "type").getD PyVal.pyNone
    if pyEqStr t "single" ∨ pyEqStr t "multi" then
      if pyEqStr t "multi" then
        match pyGet content "replies" with
        | some v => isPyList v
        | Option.none => false
      else true
    else false

/-! ## Content handed to the formatter (typed fields accessed via `.get`) -/

/-- The AI-generated content dict as consumed by `thread_formatter`; each field
is optional because the code reads it with `data.get(...)`. -/
structure PostData where
  type_field : Option String
  main_post_field : Option String
  replies_field : Option (List String)
deriving DecidableEq, Repr

/-! ## HTTP exchange model -/

/-- One HTTP exchange as observed by the Python code: either the request call
itself raises (a transport/network error, so the local `response` variable is
never assigned), or a response object arrives with a 2xx flag, the parsed JSON
`id` field (`Option.none` at the outer layer means the body is not valid JSON,
so `.json()` raises; `some Option.none` means valid JSON without an `id`
field), and the raw text body. -/
inductive HttpResp where
  | transportError
  | response (is2xx : Bool) (jsonId : Option (Option String)) (body : String)
deriving DecidableEq, Repr

/-- A Python exception escaping a function of the embedded program. -/
inductive PyError where
  | unboundLocal (name : String)
deriving DecidableEq, Repr

/-- Python truthiness of an optional string (`None` and `""` are falsy). -/
def truthy : Option String → Bool
  | Option.none => false
  | some s => !s.isEmpty

/-- Outcome of the `try/except` body of `_create_container`
(src/thread_formatter.py lines 119-126). On a transport error the `except`
handler itself raises: its f-string reads `response.text`, but `response` was
never assigned, so an `UnboundLocalError` escapes. On a non-2xx response
`raise_for_status` raises, the handler prints and the function returns `None`;
on a 2xx non-JSON body `.json()` raises with the same handling; on a 2xx JSON
body the optional `id` field is returned as-is. -/
def containerResult : HttpResp → Except PyError (Option String)
  | .transportError => .error (.unboundLocal "response")
  | .response is2xx jsonId _ =>
    if is2xx then
      match jsonId with
      | some idOpt => .ok idOpt
      | Option.none => .ok Option.none
    else .ok Option.none

/-- Outcome of the `try/except` body of `_publish_container`
(src/thread_formatter.py lines 142-152), which is structurally identical to
`_create_container`: the fixed `time.sleep(2)` before the request cannot fail
and does not change the result. -/
def publishResult : HttpResp → Except PyError (Option String)
  | .transportError => .error (.unboundLocal "response")
  | .response is2xx jsonId _ =>
    if is2xx then
      match jsonId with
      | some idOpt => .ok idOpt
      | Option.none => .ok Option.none
    else .ok Option.none

/-! ## Request construction -/

def THREADS_API_BASE : String := "https://graph.threads.net/v1.0"

/-- Python string interpolation of an optional user id: `None` renders as the
four-character string `"None"` inside the f-string URL. -/
def pyNoneStr : Option String → String
  | Option.none => "None"
  | some s => s

def createUrl (user_id : Option String) : String :=
  THREADS_API_BASE ++ "/" ++ pyNoneStr user_id ++ "/threads"

def publishUrl (user_id : Option String) : String :=
  THREADS_API_BASE ++ "/" ++ pyNoneStr user_id ++ "/threads_publish"

def meUrl : String := THREADS_API_BASE ++ "/me"

/-- The query parameters of a container-creation request, as assembled by
`_create_container` (src/thread_formatter.py lines 94-117). An absent optional
field means the corresponding key was not added to the params dict. -/
structure ReqParams where
  access_token : String
  media_type : String
  text : Option String
  image_url : Option String
  is_carousel_item : Option String
  children : Option String
  reply_to_id : Option String
deriving DecidableEq, Repr

/-- Parameter assembly of `_create_container`: the `is_carousel_item` branch,
the `elif children:` branch (taken only for a non-empty children list, by
Python truthiness), and the standard branch, where `if image_url:` and
`if reply_to_id:` are Python truthiness tests. -/
def createParams (access_token : String) (text : String) (image_url : Option String)
    (reply_to_id : Option String) (is_carousel_item : Bool)
    (children : Option (List String)) : ReqParams :=
  if is_carousel_item then
    { access_token, media_type := "IMAGE", text := Option.none, image_url,
      is_carousel_item := some "true", children := Option.none,
      reply_to_id := Option.none }
  else
    match children with
    | some (c :: cs) =>
      { access_token, media_type := "CAROUSEL", text := some text,
        image_url := Option.none, is_carousel_item := Option.none,
        children := some (String.intercalate "," (c :: cs)),
        reply_to_id := if truthy reply_to_id then reply_to_id else Option.none }
    | _ =>
      { access_token,
        media_type := if truthy image_url then "IMAGE" else "TEXT",
        text := some text,
        image_url := if truthy image_url then image_url else Option.none,
        is_carousel_item := Option.none, children := Option.none,
        reply_to_id := if truthy reply_to_id then reply_to_id else Option.none }

/-- One HTTP request issued by the pipeline, as recorded in the run trace. -/
inductive ApiCall where
  | getMe (url : String) (access_token : String)
  | createContainer (url : String) (ps : ReqParams)
  | publishContainer (url : String) (access_token : String) (creation_id : String)
deriving DecidableEq, Repr

/-! ## Network state and the two protocol operations -/

/-- Network state of a run: the response oracle, the index of the next
request, and the trace of requests issued so far. -/
structure NetState where
  oracle : Nat → HttpResp
  idx : Nat
  trace : List ApiCall

/-- Issue one request: record it and consume the next oracle response. -/
def callNet (s : NetState) (c : ApiCall) : HttpResp × NetState :=
  (s.oracle s.idx, { s with idx := s.idx + 1, trace := s.trace ++ [c] })

/-- Run `_create_container` once against the network state. -/
def createContainerRun (s : NetState) (user_id : Option String) (access_token : String)
    (text : String) (image_url : Option String) (reply_to_id : Option String)
    (is_carousel_item : Bool) (children : Option (List String)) :
    Except PyError (Option String) × NetState :=
  let r := callNet s (ApiCall.createContainer (createUrl user_id)
      (createParams access_token text image_url reply_to_id is_carousel_item children))
  (containerResult r.1, r.2)

/-- Run `_publish_container` once against the network state. -/
def publishContainerRun (s : NetState) (user_id : Option String) (access_token : String)
    (creation_id : String) : Except PyError (Option String) × NetState :=
  let r := callNet s (ApiCall.publishContainer (publishUrl user_id) access_token creation_id)
  (publishResult r.1, r.2)

/-- Outcome of the `GET /me` user-resolution block of `post_to_threads`
(src/thread_formatter.py lines 166-173): any exception inside the `try`
(transport error, non-2xx, non-JSON body) is caught — the handler only prints
the exception — and the function returns `False`; a 2xx JSON response yields
`user_id = body.get("id")`, which may itself be `None`. -/
def meOutcome : HttpResp → Option (Option String)
  | .transportError => Option.none
  | .response is2xx jsonId _ => if is2xx then jsonId else Option.none

/-! ## The chain publisher -/

/-- The carousel item-creation loop of `post_to_threads` (lines 185-192): one
creation attempt per image in order, keeping the ids of the attempts whose
result is truthy. -/
def createItems (user_id : Option String) (access_token : String) :
    NetState → List String → Except PyError (List String) × NetState
  | s, [] => (.ok [], s)
  | s, img :: rest =>
    let r := createContainerRun s user_id access_token "" (some img) Option.none
        true Option.none
    match r.1 with
    | .error e => (.error e, r.2)
    | .ok idOpt =>
      let r2 := createItems user_id access_token r.2 rest
      match r2.1 with
      | .error e => (.error e, r2.2)
      | .ok ids => (.ok (if truthy idOpt then idOpt.getD "" :: ids else ids), r2.2)

/-- The reply loop of `post_to_threads` (lines 216-240): reply at 0-based
index `i` is created with image `image_urls[i+1]` (when it exists) and
`reply_to_id = last`; on a truthy creation it is published; on a truthy
publish `last` advances; on any falsy result the loop breaks, returning the
last successfully published id. -/
def replyLoop (user_id : Option String) (access_token : String)
    (image_urls : List String) :
    NetState → Nat → String → List String → Except PyError String × NetState
  | s, _, last, [] => (.ok last, s)
  | s, i, last, reply_text :: rest =>
    let r := createContainerRun s user_id access_token reply_text
        (image_urls.get? (i + 1)) (some last) false Option.none
    match r.1 with
    | .error e => (.error e, r.2)
    | .ok contOpt =>
      if truthy contOpt then
        let p := publishContainerRun r.2 user_id access_token (contOpt.getD "")
        match p.1 with
        | .error e => (.error e, p.2)
        | .ok pubOpt =>
          if truthy pubOpt then
            replyLoop user_id access_token image_urls p.2 (i + 1) (pubOpt.getD "") rest
          else (.ok last, p.2)
      else (.ok last, r.2)

/-- Result of one run of the chain publisher: the value `post_to_threads`
returns to its caller (or the Python exception that escaped it), together
with the trace of HTTP requests it issued. -/
structure RunOutcome where
  result : Except PyError Bool
  trace : List ApiCall
deriving Repr

/-- The root-container build of `post_to_threads` (lines 180-201): the
carousel path is taken when `data.get("type","single") == "single"` and more
than one image is given — item containers for every image, then the parent
`CAROUSEL` container when at least one item id was collected, else the
container id stays `None`; otherwise the standard path creates one container
with `image_urls[0]` (if any). -/
def rootContainerPhase (data : PostData) (image_urls : List String)
    (user_id : Option String) (access_token : String) (s : NetState) :
    Except PyError (Option String) × NetState :=
  let main_text := data.main_post_field.getD ""
  if data.type_field.getD "single" = "single" ∧ 1 < image_urls.length then
    let items := createItems user_id access_token s image_urls
    match items.1 with
    | .error e => (.error e, items.2)
    | .ok item_ids =>
      if 0 < item_ids.length then
        createContainerRun items.2 user_id access_token main_text Option.none
          Option.none false (some item_ids)
      else (.ok Option.none, items.2)
  else
    createContainerRun s user_id access_token main_text image_urls.head?
      Option.none false Option.none

/-- The closing step of `post_to_threads` (lines 242-250): the source-citation
container is created with text `"출처: " + source_url` anchored to the last
published post; if its creation is truthy it is published; the function
returns `True` regardless of either citation outcome. -/
def citationPhase (user_id : Option String) (access_token : String)
    (source_url : String) (last_post_id : String) (s : NetState) : RunOutcome :=
  let sc := createContainerRun s user_id access_token ("출처: " ++ source_url)
      Option.none (some last_post_id) false Option.none
  match sc.1 with
  | .error e => { result := .error e, trace := sc.2.trace }
  | .ok srcOpt =>
    if truthy srcOpt then
      let sp := publishContainerRun sc.2 user_id access_token (srcOpt.getD "")
      match sp.1 with
      | .error e => { result := .error e, trace := sp.2.trace }
      | .ok _ => { result := .ok true, trace := sp.2.trace }
    else { result := .ok true, trace := sc.2.trace }

/-- Embedding of `post_to_threads` (src/thread_formatter.py lines 154-250):
resolve the user id via `GET /me`; build the root container (carousel or
standard path); abort returning `False` when the root container creation or
publication is falsy; run the reply loop when `data.get("type") == "multi"`;
finally always attempt the source-citation post anchored to the last
published id, and return `True` regardless of the citation outcome. -/
def post_to_threads (data : PostData) (image_urls : List String) (source_url : String)
    (access_token : String) (oracle : Nat → HttpResp) : RunOutcome :=
  let s0 : NetState := { oracle, idx := 0, trace := [] }
  let m := callNet s0 (ApiCall.getMe meUrl access_token)
  match meOutcome m.1 with
  | Option.none => { result := .ok false, trace := m.2.trace }
  | some user_id =>
    let phase1 := rootContainerPhase data image_urls user_id access_token m.2
    match phase1.1 with
    | .error e => { result := .error e, trace := phase1.2.trace }
    | .ok containerOpt =>
      if truthy containerOpt then
        let pub := publishContainerRun phase1.2 user_id access_token (containerOpt.getD "")
        match pub.1 with
        | .error e => { result := .error e, trace := pub.2.trace }
        | .ok mainOpt =>
          if truthy mainOpt then
            let main_post_id := mainOpt.getD ""
            let rl : Except PyError String × NetState :=
              if data.type_field = some "multi" then
                replyLoop user_id access_token image_urls pub.2 0 main_post_id
                  (data.replies_field.getD [])
              else (.ok main_post_id, pub.2)
            match rl.1 with
            | .error e => { result := .error e, trace := rl.2.trace }
            | .ok last_post_id =>
              citationPhase user_id access_token source_url last_post_id rl.2
          else { result := .ok false, trace := pub.2.trace }
      else { result := .ok false, trace := phase1.2.trace }

/-! ## The formatter and the dry-run printer -/

/-- The structured output produced by `format_output`
(src/thread_formatter.py lines 6-22). -/
structure FormattedOutput where
  type : String
  main_text : String
  main_image_url : Option String
  replies : List String
  source_reply : String
deriving DecidableEq, Repr

/-- Embedding of `format_output`: note its `source_reply` is built with the
f-string `f"출처 : {source_url}"` — a space before the colon. -/
def format_output (data : PostData) (image_url : Option String)
    (source_url : String) : FormattedOutput :=
  { type := data.type_field.getD "single",
    main_text := data.main_post_field.getD "",
    main_image_url := image_url,
    replies := data.replies_field.getD [],
    source_reply := "출처 : " ++ source_url }

def dryRunSep : String := String.mk (List.replicate 50 '=')

def dryRunSubSep : String := String.mk (List.replicate 30 '-')

/-- Embedding of `print_dry_run` (src/thread_formatter.py lines 24-75) as the
list of lines it prints, one list element per `print` call, in order. Its
citation line is `f"출처 : {source_url}"` — a space before the colon. -/
def print_dry_run (data : PostData) (image_urls : List String)
    (source_url : String) : List String :=
  let headBlock := ["\n" ++ dryRunSep,
    "📢 [DRY RUN] 게시물 타입: " ++ (data.type_field.getD "unknown").toUpper,
    dryRunSep,
    "\n[1] 메인 포스트"]
  let imageBlock :=
    if data.type_field.getD "single" = "single" ∧ 1 < image_urls.length then
      ("    🎠 [Carousel Mode] 총 " ++ toString image_urls.length ++ "장의 이미지 포함") ::
        image_urls.enum.map (fun p =>
          "    - 이미지[" ++ toString p.1 ++ "]: " ++ p.2.take 60 ++ "...")
    else if 0 < image_urls.length then
      ["    🖼️ 이미지[0]: " ++ ((image_urls.get? 0).getD "").take 60 ++ "..."]
    else ["    🖼️ 이미지: 없음"]
  let mainBlock := [dryRunSubSep, data.main_post_field.getD ""]
  let replyBlock :=
    if data.type_field = some "multi" then
      (data.replies_field.getD []).enum.flatMap (fun p =>
        ("\n[" ++ toString (p.1 + 2) ++ "] 대댓글") ::
          ((if p.1 + 1 < image_urls.length then
              ["    🖼️ 이미지[" ++ toString (p.1 + 1) ++ "]: " ++
                ((image_urls.get? (p.1 + 1)).getD "").take 60 ++ "..."]
            else []) ++ [dryRunSubSep, p.2]))
    else []
  let citationNum :=
    if data.type_field = some "multi" then (data.replies_field.getD []).length + 2 else 2
  let tailBlock := ["\n[" ++ toString citationNum ++ "] 출처 페이지",
    dryRunSubSep,
    "출처 : " ++ source_url,
    "\n" ++ dryRunSep,
    "✅ Dry Run 완료. 실제 Threads에는 업로드되지 않았습니다.",
    dryRunSep ++ "\n"]
  headBlock ++ imageBlock ++ mainBlock ++ replyBlock ++ tailBlock

/-! ## Response shapes used in the theorems -/

/-- A 2xx response whose JSON body carries the id `id`. -/
def okIdResp (id : String) : HttpResp := .response true (some (some id)) ""

/-- A non-2xx response: `raise_for_status` raises inside the `try`, the
handler catches it, and the operation reports failure by returning `None`. -/
def errResp : HttpResp := .response false (some Option.none) "error body"

/-- An oracle answering every request with a 2xx response carrying id
`idf n` for the n-th request. -/
def okOracle (idf : Nat → String) : Nat → HttpResp := fun n => okIdResp (idf n)

/-- An oracle has no transport errors: every request reaches the platform and
some response object comes back. -/
def NoTransportError (oracle : Nat → HttpResp) : Prop :=
  ∀ n, oracle n ≠ HttpResp.transportError

/-! ## Basic lemmas -/

lemma pyEqStr_iff (v : PyVal) (s : String) : pyEqStr v s = true ↔ v = PyVal.str s := by
  cases v <;> simp [pyEqStr]

lemma createContainerRun_def (s : NetState) (uid : Option String) (tok text : String)
    (img rep : Option String) (ici : Bool) (ch : Option (List String)) :
    createContainerRun s uid tok text img rep ici ch =
      (containerResult (s.oracle s.idx),
       ⟨s.oracle, s.idx + 1,
        s.trace ++ [ApiCall.createContainer (createUrl uid)
          (createParams tok text img rep ici ch)]⟩) := rfl

lemma publishContainerRun_def (s : NetState) (uid : Option String) (tok cid : String) :
    publishContainerRun s uid tok cid =
      (publishResult (s.oracle s.idx),
       ⟨s.oracle, s.idx + 1,
        s.trace ++ [ApiCall.publishContainer (publishUrl uid) tok cid]⟩) := rfl

lemma publishResult_eq_containerResult (r : HttpResp) :
    publishResult r = containerResult r := by
  cases r <;> rfl

lemma containerResult_okIdResp (id : String) :
    containerResult (okIdResp id) = Except.ok (some id) := rfl

lemma truthy_none : truthy Option.none = false := rfl

lemma truthy_some_iff (s : String) : truthy (some s) = true ↔ s ≠ "" := by
  simp only [truthy, Bool.not_eq_true']
  rw [Bool.eq_false_iff, ne_eq, String.isEmpty_iff]

/-! ## Claim C2 — container-protocol failures never raise (code bug) -/

/-- C2: the claim states `_create_container` and `_publish_container` return
`None` rather than raising on any failure, any non-2xx response and any
transport error alike. The code satisfies this only for failures where a
response object exists (non-2xx, non-JSON body): on a transport error the
request call raises before `response` is assigned, and the `except` handler
itself then raises `UnboundLocalError` while formatting its diagnostic
message, so an exception does cross the container-protocol boundary. This
theorem records both behaviors of the code. -/
theorem containerProtocol_transport_error_raises :
    containerResult HttpResp.transportError =
        Except.error (PyError.unboundLocal "response") ∧
    publishResult HttpResp.transportError =
        Except.error (PyError.unboundLocal "response") ∧
    (∀ jsonId body, containerResult (HttpResp.response false jsonId body) =
        Except.ok Option.none) ∧
    (∀ jsonId body, publishResult (HttpResp.response false jsonId body) =
        Except.ok Option.none) := by
  refine ⟨rfl, rfl, ?_, ?_⟩ <;> intro jsonId body <;> rfl

/-! ## Claim C9 — validate_content (corrected) -/

/-- The fail-condition set of claim C9, stated from the claim's words: content
empty/absent; `type` or `main_post` missing; `type` not one of the two
recognized values; or `type = multi` with a replies field that is
*present but not a sequence*. (Claim-side definition, for comparison with
`validate_content`.) -/
def claimedInvalid (content : PyDict) : Bool :=
  content.isEmpty ||
    (pyGet content "type").isNone || (pyGet content "main_post").isNone ||
    (let t := (pyGet content "type").getD PyVal.pyNone
     (!pyEqStr t "single" && !pyEqStr t "multi") ||
       (pyEqStr t "multi" &&
         (match pyGet content "replies" with
          | some v => !isPyList v
          | Option.none => false)))

/-- C9 counterexample: for `{"type": "multi", "main_post": "x"}` — multi
content whose replies field is *missing*, not present-but-not-a-sequence —
`validate_content` returns `false`, while the claim's condition set says it
should return `true`. -/
theorem validate_content_claim_counterexample :
    validate_content [("type", PyVal.str "multi"), ("main_post", PyVal.str "x")] = false ∧
    claimedInvalid [("type", PyVal.str "multi"), ("main_post", PyVal.str "x")] = false := by
  exact ⟨rfl, rfl⟩

/-- C9 (amended): `validate_content` is a pure total predicate returning
`false` exactly when the content is empty/absent, the `type` or `main_post`
field is missing, the `type` is not one of `single`/`multi`, or the `type` is
`multi` and the replies field is **missing or** not a sequence — and `true`
for every other content. -/
theorem validate_content_false_iff (content : PyDict) :
    validate_content content = false ↔
      (content = [] ∨
       pyGet content "type" = Option.none ∨
       pyGet content "main_post" = Option.none ∨
       (¬ (pyGet content "type" = some (PyVal.str "single") ∨
           pyGet content "type" = some (PyVal.str "multi"))) ∨
       (pyGet content "type" = some (PyVal.str "multi") ∧
         (pyGet content "replies" = Option.none ∨
          ∃ v, pyGet content "replies" = some v ∧ isPyList v = false))) := by
  unfold validate_content
  by_cases hE : content.isEmpty
  · simp [hE, List.isEmpty_iff.mp hE]
  · have hne : ¬ content = [] := by
      intro h
      rw [h] at hE
      exact hE rfl
    simp only [hE, if_false, hne, false_or]
    rcases hT : pyGet content "type" with _ | v
    · simp [hT]
    · rcases hM : pyGet content "main_post" with _ | w
      · simp [hT, hM]
      · simp only [hT, hM, Option.isNone_some, or_self, if_false, Option.getD_some,
          if_true, false_or, reduceCtorEq]
        by_cases hs : v = PyVal.str "single"
        · simp [hs, pyEqStr]
        · by_cases hm : v = PyVal.str "multi"
          · subst hm
            simp only [pyEqStr, beq_self_eq_true, or_true, if_true, reduceCtorEq,
              Option.some.injEq, false_or]
            rcases hR : pyGet content "replies" with _ | r
            · simp [hR]
            · cases r <;> simp [hR, isPyList]
          · have h1 : pyEqStr v "single" = false := by
              rcases h : pyEqStr v "single" with _ | _
              · rfl
              · exact absurd ((pyEqStr_iff v "single").mp h) hs
            have h2 : pyEqStr v "multi" = false := by
              rcases h : pyEqStr v "multi" with _ | _
              · rfl
              · exact absurd ((pyEqStr_iff v "multi").mp h) hm
            simp [h1, h2, hs, hm, Option.some.injEq]

/-! ## Trace infrastructure -/

/-- The ids the item-creation loop keeps: the truthy outcomes, in order. -/
def collectTruthy : List (Option String) → List String
  | [] => []
  | o :: rest => if truthy o then o.getD "" :: collectTruthy rest else collectTruthy rest

/-- The request `_create_container` issues for one carousel item. -/
def itemCall (uid : Option String) (tok img : String) : ApiCall :=
  ApiCall.createContainer (createUrl uid)
    (createParams tok "" (some img) Option.none true Option.none)

/-- Characterization of the item-creation loop under a response script `bs`
(one entry per image, `some id` for a creation whose JSON carries `id`,
`Option.none` for a failed creation): every image is attempted in order, and
exactly the truthy outcomes are collected. -/
lemma createItems_script (uid : Option String) (tok : String) (imgs : List String) :
    ∀ (bs : List (Option String)) (s : NetState),
      bs.length = imgs.length →
      (∀ m o, bs.get? m = some o →
        containerResult (s.oracle (s.idx + m)) = Except.ok o) →
      createItems uid tok s imgs =
        (Except.ok (collectTruthy bs),
         ⟨s.oracle, s.idx + imgs.length, s.trace ++ imgs.map (itemCall uid tok)⟩) := by
  induction imgs with
  | nil =>
    intro bs s hlen _
    have hbs : bs = [] := List.length_eq_zero.mp hlen
    subst hbs
    simp [createItems, collectTruthy]
  | cons img rest ih =>
    intro bs s hlen hresp
    rcases bs with _ | ⟨b, brest⟩
    · exact absurd hlen (by simp)
    have h0 : containerResult (s.oracle s.idx) = Except.ok b := by
      simpa using hresp 0 b rfl
    have hlen2 : brest.length = rest.length := by simpa using hlen
    have hresp2 : ∀ m o, brest.get? m = some o →
        containerResult (s.oracle (s.idx + 1 + m)) = Except.ok o := by
      intro m o hm
      have := hresp (m + 1) o (by simpa using hm)
      have harith : s.idx + (m + 1) = s.idx + 1 + m := by omega
      rwa [harith] at this
    have hrec := ih brest ⟨s.oracle, s.idx + 1, s.trace ++ [itemCall uid tok img]⟩ hlen2 hresp2
    show createItems uid tok s (img :: rest) = _
    rw [createItems, createContainerRun_def, h0]
    simp only [itemCall] at hrec
    rw [hrec]
    simp only [collectTruthy, List.map_cons, List.append_assoc, List.singleton_append,
      List.length_cons, itemCall, Prod.mk.injEq, NetState.mk.injEq]
    exact ⟨trivial, trivial, by omega, trivial⟩

/-- The create/publish call-pair sequence a fully successful reply chain
issues under an oracle answering request `n` with id `idf n`: reply at
0-based index `i` is created with image `imgs[i+1]` (when present) anchored
to the previous published id, then published; the new published id
`idf (idx+1)` anchors the next pair. -/
def chainCalls (uid : Option String) (tok : String) (imgs : List String)
    (idf : Nat → String) : Nat → Nat → String → List String → List ApiCall
  | _, _, _, [] => []
  | i, idx, last, r :: rest =>
    ApiCall.createContainer (createUrl uid)
        (createParams tok r (imgs.get? (i + 1)) (some last) false Option.none) ::
      ApiCall.publishContainer (publishUrl uid) tok (idf idx) ::
      chainCalls uid tok imgs idf (i + 1) (idx + 2) (idf (idx + 1)) rest

/-- The id of the last published post after a fully successful reply chain
whose first request has index `idx`, starting from previous id `last`. -/
def chainLast (idf : Nat → String) : Nat → String → List String → String
  | _, last, [] => last
  | idx, _, _ :: rest => chainLast idf (idx + 2) (idf (idx + 1)) rest

lemma chainLast_ne_empty (idf : Nat → String) (hid : ∀ n, idf n ≠ "") :
    ∀ (rs : List String) (idx : Nat) (last : String), last ≠ "" →
      chainLast idf idx last rs ≠ "" := by
  intro rs
  induction rs with
  | nil => intro idx last h; exact h
  | cons r rest ih => intro idx last _; exact ih (idx + 2) (idf (idx + 1)) (hid (idx + 1))

/-- Characterization of a fully successful reply loop: under an oracle
answering every request of the loop's window with a 2xx response carrying the
non-empty id `idf n`, the loop issues the `chainCalls` sequence and returns
the last published id. -/
lemma replyLoop_success (uid : Option String) (tok : String) (imgs : List String)
    (idf : Nat → String) (hid : ∀ n, idf n ≠ "") (rs : List String) :
    ∀ (s : NetState) (i : Nat) (last : String),
      (∀ m, m < 2 * rs.length → s.oracle (s.idx + m) = okIdResp (idf (s.idx + m))) →
      replyLoop uid tok imgs s i last rs =
        (Except.ok (chainLast idf s.idx last rs),
         ⟨s.oracle, s.idx + 2 * rs.length,
          s.trace ++ chainCalls uid tok imgs idf i s.idx last rs⟩) := by
  induction rs with
  | nil =>
    intro s i last _
    simp [replyLoop, chainLast, chainCalls]
  | cons r rest ih =>
    intro s i last hresp
    have hL : (r :: rest).length = rest.length + 1 := rfl
    have h0 : s.oracle s.idx = okIdResp (idf s.idx) := by
      simpa using hresp 0 (by rw [hL]; omega)
    have h1 : s.oracle (s.idx + 1) = okIdResp (idf (s.idx + 1)) :=
      hresp 1 (by rw [hL]; omega)
    have ht0 : truthy (some (idf s.idx)) = true := (truthy_some_iff _).mpr (hid s.idx)
    have ht1 : truthy (some (idf (s.idx + 1))) = true :=
      (truthy_some_iff _).mpr (hid (s.idx + 1))
    have hrec := ih ⟨s.oracle, s.idx + 2,
        s.trace ++ [ApiCall.createContainer (createUrl uid)
            (createParams tok r (imgs.get? (i + 1)) (some last) false Option.none),
          ApiCall.publishContainer (publishUrl uid) tok (idf s.idx)]⟩
        (i + 1) (idf (s.idx + 1)) ?window
    case window =>
      intro m hm
      have := hresp (m + 2) (by rw [hL]; omega)
      have harith : s.idx + (m + 2) = s.idx + 2 + m := by omega
      rwa [harith] at this
    show replyLoop uid tok imgs s i last (r :: rest) = _
    simp only [replyLoop, createContainerRun_def, publishContainerRun_def, h0, h1,
      publishResult_eq_containerResult, containerResult_okIdResp, Option.getD_some,
      List.append_assoc, List.singleton_append, List.cons_append, List.nil_append]
    rw [if_pos ht0, if_pos ht1]
    rw [show s.idx + 1 + 1 = s.idx + 2 from by omega]
    rw [hrec]
    simp only [chainCalls, chainLast, List.append_assoc, List.cons_append,
      List.nil_append, List.singleton_append, List.length_cons, Prod.mk.injEq,
      NetState.mk.injEq]
    exact ⟨trivial, trivial, by omega, trivial⟩

/-- The request parameters the specification prescribes for a standard
(non-carousel) chain post: media type `IMAGE` exactly when an image is
attached, the post text, the optional single image, and an optional anchor to
the previous published post. (Spec-side definition, for refinement
comparison.) -/
def specPostParams (tok text : String) (img : Option String)
    (anchor : Option String) : ReqParams :=
  { access_token := tok,
    media_type := match img with | some _ => "IMAGE" | Option.none => "TEXT",
    text := some text, image_url := img,
    is_carousel_item := Option.none, children := Option.none,
    reply_to_id := anchor }

/-- On non-empty image urls and non-empty anchors, the parameters
`_create_container` assembles on its standard branch coincide with the
spec-prescribed parameters. -/
lemma createParams_std_spec (tok text : String) (img : Option String)
    (anchor : Option String) (himg : ∀ u, img = some u → u ≠ "")
    (hanc : ∀ a, anchor = some a → a ≠ "") :
    createParams tok text img anchor false Option.none =
      specPostParams tok text img anchor := by
  rcases img with _ | u <;> rcases anchor with _ | a
  · rfl
  · have ha : truthy (some a) = true := (truthy_some_iff a).mpr (hanc a rfl)
    simp [createParams, specPostParams, ha, truthy_none]
  · have hu : truthy (some u) = true := (truthy_some_iff u).mpr (himg u rfl)
    simp [createParams, specPostParams, hu, truthy_none]
  · have ha : truthy (some a) = true := (truthy_some_iff a).mpr (hanc a rfl)
    have hu : truthy (some u) = true := (truthy_some_iff u).mpr (himg u rfl)
    simp [createParams, specPostParams, hu, ha]

/-- The chain of reply requests the specification prescribes for a fully
successful Multi run: reply at 0-based index `i` is created with the
spec-prescribed parameters — image `imgs[i+1]` when it exists, anchored to
the immediately preceding published post — and then published. (Spec-side
definition, for refinement comparison.) -/
def specReplyCalls (uid : Option String) (tok : String) (imgs : List String)
    (idf : Nat → String) : Nat → Nat → String → List String → List ApiCall
  | _, _, _, [] => []
  | i, idx, last, r :: rest =>
    ApiCall.createContainer (createUrl uid)
        (specPostParams tok r (imgs.get? (i + 1)) (some last)) ::
      ApiCall.publishContainer (publishUrl uid) tok (idf idx) ::
      specReplyCalls uid tok imgs idf (i + 1) (idx + 2) (idf (idx + 1)) rest

/-- On non-empty image urls and non-empty published ids, the reply-chain
calls the code issues coincide with the spec-prescribed ones. -/
lemma chainCalls_eq_spec (uid : Option String) (tok : String) (imgs : List String)
    (idf : Nat → String) (himgs : ∀ u ∈ imgs, u ≠ "") (hid : ∀ n, idf n ≠ "") :
    ∀ (rs : List String) (i idx : Nat) (last : String), last ≠ "" →
      chainCalls uid tok imgs idf i idx last rs =
        specReplyCalls uid tok imgs idf i idx last rs := by
  intro rs
  induction rs with
  | nil => intro i idx last _; rfl
  | cons r rest ih =>
    intro i idx last hlast
    show chainCalls uid tok imgs idf i idx last (r :: rest) = _
    rw [chainCalls, specReplyCalls,
      createParams_std_spec tok r (imgs.get? (i + 1)) (some last)
        (fun u hu => himgs u (List.get?_mem hu))
        (fun a ha => by rw [Option.some.injEq] at ha; subst ha; exact hlast),
      ih (i + 1) (idx + 2) (idf (idx + 1)) (hid (idx + 1))]

/-- The full request chain the specification prescribes for a fully
successful Multi run when the platform answers request `n` with id `idf n`:
user resolution, the root post carrying `imgs[0]` when present, each reply in
order carrying `imgs[i]` when it exists and anchored to the immediately
preceding published post, and the final citation post with text
`"출처: " + source_url`, no image, anchored to the last published post; every
container is published right after its creation, and no image beyond
`imgs[replies.length]` is used anywhere. (Spec-side definition, for
refinement comparison.) -/
def specMultiRunTrace (root : String) (replies imgs : List String)
    (src tok : String) (idf : Nat → String) : List ApiCall :=
  ApiCall.getMe meUrl tok ::
    ApiCall.createContainer (createUrl (some (idf 0)))
      (specPostParams tok root imgs.head? Option.none) ::
    ApiCall.publishContainer (publishUrl (some (idf 0))) tok (idf 1) ::
    (specReplyCalls (some (idf 0)) tok imgs idf 0 3 (idf 2) replies ++
      [ApiCall.createContainer (createUrl (some (idf 0)))
          (specPostParams tok ("출처: " ++ src) Option.none
            (some (chainLast idf 3 (idf 2) replies))),
        ApiCall.publishContainer (publishUrl (some (idf 0))) tok
          (idf (3 + 2 * replies.length))])

/-! ## Phase extension lemmas (arbitrary oracle) -/

lemma containerResult_ok_of_ne (r : HttpResp) (h : r ≠ HttpResp.transportError) :
    ∃ o, containerResult r = Except.ok o := by
  cases r with
  | transportError => exact absurd rfl h
  | response is2xx jsonId body =>
    cases is2xx <;> rcases jsonId with _ | o <;> exact ⟨_, rfl⟩

lemma publishResult_ok_of_ne (r : HttpResp) (h : r ≠ HttpResp.transportError) :
    ∃ o, publishResult r = Except.ok o := by
  rw [publishResult_eq_containerResult]
  exact containerResult_ok_of_ne r h

/-- Calls a standard (non-carousel) chain step may issue: a container creation
with no carousel marker and no children at the user's create url, or a
publication at the user's publish url. -/
def StdChainCall (uid : Option String) (tok : String) (c : ApiCall) : Prop :=
  (∃ ps, c = ApiCall.createContainer (createUrl uid) ps ∧
    ps.is_carousel_item = Option.none ∧ ps.children = Option.none) ∨
  (∃ cid, c = ApiCall.publishContainer (publishUrl uid) tok cid)

/-- Calls the root-container phase may issue: container creations at the
user's create url, never anchored to a previous post. -/
def RootPhaseCall (uid : Option String) (c : ApiCall) : Prop :=
  ∃ ps, c = ApiCall.createContainer (createUrl uid) ps ∧ ps.reply_to_id = Option.none

lemma createParams_std_no_carousel (tok text : String) (img rep : Option String) :
    (createParams tok text img rep false Option.none).is_carousel_item = Option.none ∧
    (createParams tok text img rep false Option.none).children = Option.none :=
  ⟨rfl, rfl⟩

lemma createParams_no_anchor (tok text : String) (img : Option String) (ici : Bool)
    (ch : Option (List String)) :
    (createParams tok text img Option.none ici ch).reply_to_id = Option.none := by
  rcases ici with _ | _
  · rcases ch with _ | ⟨_ | ⟨c, cs⟩⟩ <;> rfl
  · rfl

lemma mem_singleton_cases {c a : ApiCall} (h : c ∈ [a]) : c = a := by
  simpa using h

/-- Trace extension of the item-creation loop, for an arbitrary oracle: only
unanchored creations at the user's create url are issued, at least one per
image attempted, and without transport errors the loop cannot raise. -/
lemma createItems_ext (uid : Option String) (tok : String) :
    ∀ (imgs : List String) (s : NetState),
      ∃ res ext, createItems uid tok s imgs =
          (res, ⟨s.oracle, s.idx + ext.length, s.trace ++ ext⟩) ∧
        (∀ c ∈ ext, RootPhaseCall uid c) ∧ (imgs ≠ [] → ext ≠ []) ∧
        (NoTransportError s.oracle → ∃ ids, res = Except.ok ids) := by
  intro imgs
  induction imgs with
  | nil =>
    intro s
    exact ⟨Except.ok [], [], by simp [createItems], by simp, by simp, fun _ => ⟨[], rfl⟩⟩
  | cons img rest ih =>
    intro s
    have hitem : RootPhaseCall uid (itemCall uid tok img) := ⟨_, rfl, rfl⟩
    rcases hr : containerResult (s.oracle s.idx) with e | idOpt
    · refine ⟨Except.error e, [itemCall uid tok img], ?_, ?_, by simp, ?_⟩
      · show createItems uid tok s (img :: rest) = _
        rw [createItems, createContainerRun_def, hr]
        rfl
      · intro c hc
        have h := mem_singleton_cases hc
        subst h
        exact hitem
      · intro hnt
        rcases containerResult_ok_of_ne (s.oracle s.idx) (hnt s.idx) with ⟨o, ho⟩
        rw [hr] at ho
        cases ho
    · rcases ih ⟨s.oracle, s.idx + 1, s.trace ++ [itemCall uid tok img]⟩ with
        ⟨res2, ext2, heq2, hmem2, _, hok2⟩
      simp only [itemCall] at heq2
      rcases res2 with e | ids
      · refine ⟨Except.error e, itemCall uid tok img :: ext2, ?_, ?_, by simp, ?_⟩
        · show createItems uid tok s (img :: rest) = _
          simp only [createItems, createContainerRun_def, hr, heq2]
          simp only [Prod.mk.injEq, NetState.mk.injEq, List.length_cons,
            List.append_assoc, List.singleton_append, itemCall]
          exact ⟨trivial, trivial, by omega, trivial⟩
        · intro c hc
          rcases List.mem_cons.mp hc with h | h
          · subst h
            exact hitem
          · exact hmem2 c h
        · intro hnt
          rcases hok2 hnt with ⟨ids, h⟩
          cases h
      · refine ⟨Except.ok (if truthy idOpt then idOpt.getD "" :: ids else ids),
          itemCall uid tok img :: ext2, ?_, ?_, by simp, fun _ => ⟨_, rfl⟩⟩
        · show createItems uid tok s (img :: rest) = _
          simp only [createItems, createContainerRun_def, hr, heq2]
          simp only [Prod.mk.injEq, NetState.mk.injEq, List.length_cons,
            List.append_assoc, List.singleton_append, itemCall]
          exact ⟨trivial, trivial, by omega, trivial⟩
        · intro c hc
          rcases List.mem_cons.mp hc with h | h
          · subst h
            exact hitem
          · exact hmem2 c h

/-- Trace extension of the root-container phase, for an arbitrary oracle:
only unanchored creations at the user's create url are issued, at least one
call is made, and without transport errors the phase cannot raise. -/
lemma rootPhase_ext (data : PostData) (imgs : List String) (uid : Option String)
    (tok : String) (s : NetState) :
    ∃ res ext, rootContainerPhase data imgs uid tok s =
        (res, ⟨s.oracle, s.idx + ext.length, s.trace ++ ext⟩) ∧
      (∀ c ∈ ext, RootPhaseCall uid c) ∧ ext ≠ [] ∧
      (NoTransportError s.oracle → ∃ o, res = Except.ok o) := by
  by_cases hc : data.type_field.getD "single" = "single" ∧ 1 < imgs.length
  · rcases createItems_ext uid tok imgs s with ⟨resI, extI, heqI, hmemI, hneI, hokI⟩
    have hIne : extI ≠ [] := hneI (by
      intro h
      rw [h] at hc
      simp at hc)
    rcases resI with e | ids
    · refine ⟨Except.error e, extI, ?_, hmemI, hIne, ?_⟩
      · simp only [rootContainerPhase, if_pos hc, heqI]
      · intro hnt
        rcases hokI hnt with ⟨ids, h⟩
        cases h
    · by_cases hl : 0 < ids.length
      · refine ⟨containerResult (s.oracle (s.idx + extI.length)),
          extI ++ [ApiCall.createContainer (createUrl uid)
            (createParams tok (data.main_post_field.getD "") Option.none Option.none
              false (some ids))], ?_, ?_, by simp [hIne], ?_⟩
        · simp only [rootContainerPhase, if_pos hc, heqI, if_pos hl,
            createContainerRun_def]
          simp only [Prod.mk.injEq, NetState.mk.injEq, List.length_append,
            List.length_cons, List.length_nil, List.append_assoc]
          exact ⟨trivial, trivial, by omega, trivial⟩
        · intro c hcm
          rcases List.mem_append.mp hcm with h | h
          · exact hmemI c h
          · have h2 := mem_singleton_cases h
            subst h2
            exact ⟨_, rfl, createParams_no_anchor tok _ Option.none false (some ids)⟩
        · intro hnt
          exact containerResult_ok_of_ne _ (hnt _)
      · refine ⟨Except.ok Option.none, extI, ?_, hmemI, hIne, fun _ => ⟨_, rfl⟩⟩
        simp only [rootContainerPhase, if_pos hc, heqI, if_neg hl]
  · refine ⟨containerResult (s.oracle s.idx),
      [ApiCall.createContainer (createUrl uid)
        (createParams tok (data.main_post_field.getD "") imgs.head? Option.none
          false Option.none)], ?_, ?_, by simp, ?_⟩
    · simp only [rootContainerPhase, if_neg hc, createContainerRun_def]
      simp only [Prod.mk.injEq, NetState.mk.injEq, List.length_cons, List.length_nil]
    · intro c hcm
      have h := mem_singleton_cases hcm
      subst h
      exact ⟨_, rfl, createParams_no_anchor tok _ imgs.head? false Option.none⟩
    · intro hnt
      exact containerResult_ok_of_ne _ (hnt _)

/-- Trace extension of the reply loop, for an arbitrary oracle: only standard
(non-carousel) creations and publications at the user's urls are issued, and
without transport errors the loop cannot raise. -/
lemma replyLoop_ext (uid : Option String) (tok : String) (imgs : List String) :
    ∀ (rs : List String) (s : NetState) (i : Nat) (last : String),
      ∃ res ext, replyLoop uid tok imgs s i last rs =
          (res, ⟨s.oracle, s.idx + ext.length, s.trace ++ ext⟩) ∧
        (∀ c ∈ ext, StdChainCall uid tok c) ∧
        (NoTransportError s.oracle → ∃ l, res = Except.ok l) := by
  intro rs
  induction rs with
  | nil =>
    intro s i last
    exact ⟨Except.ok last, [], by simp [replyLoop], by simp, fun _ => ⟨last, rfl⟩⟩
  | cons r rest ih =>
    intro s i last
    have hcr : StdChainCall uid tok (ApiCall.createContainer (createUrl uid)
        (createParams tok r (imgs.get? (i + 1)) (some last) false Option.none)) :=
      Or.inl ⟨_, rfl, createParams_std_no_carousel tok r _ (some last)⟩
    rcases hr : containerResult (s.oracle s.idx) with e | contOpt
    · refine ⟨Except.error e, [ApiCall.createContainer (createUrl uid)
          (createParams tok r (imgs.get? (i + 1)) (some last) false Option.none)],
        ?_, ?_, ?_⟩
      · show replyLoop uid tok imgs s i last (r :: rest) = _
        rw [replyLoop, createContainerRun_def, hr]
        rfl
      · intro c hcm
        have h := mem_singleton_cases hcm
        subst h
        exact hcr
      · intro hnt
        rcases containerResult_ok_of_ne (s.oracle s.idx) (hnt s.idx) with ⟨o, ho⟩
        rw [hr] at ho
        cases ho
    · by_cases htc : truthy contOpt
      · rcases hp : publishResult (s.oracle (s.idx + 1)) with e | pubOpt
        · refine ⟨Except.error e, [ApiCall.createContainer (createUrl uid)
              (createParams tok r (imgs.get? (i + 1)) (some last) false Option.none),
            ApiCall.publishContainer (publishUrl uid) tok (contOpt.getD "")], ?_, ?_, ?_⟩
          · show replyLoop uid tok imgs s i last (r :: rest) = _
            simp only [replyLoop, createContainerRun_def, hr, htc, if_true,
              publishContainerRun_def, hp]
            simp only [Prod.mk.injEq, NetState.mk.injEq, List.length_cons,
              List.length_nil, List.append_assoc, List.singleton_append]
          · intro c hcm
            rcases List.mem_cons.mp hcm with h | h
            · subst h
              exact hcr
            · have h2 := mem_singleton_cases h
              subst h2
              exact Or.inr ⟨_, rfl⟩
          · intro hnt
            rcases publishResult_ok_of_ne (s.oracle (s.idx + 1)) (hnt _) with ⟨o, ho⟩
            rw [hp] at ho
            cases ho
        · by_cases htp : truthy pubOpt
          · rcases ih ⟨s.oracle, s.idx + 1 + 1,
                s.trace ++ [ApiCall.createContainer (createUrl uid)
                    (createParams tok r (imgs.get? (i + 1)) (some last) false Option.none),
                  ApiCall.publishContainer (publishUrl uid) tok (contOpt.getD "")]⟩
              (i + 1) (pubOpt.getD "") with ⟨res2, ext2, heq2, hmem2, hok2⟩
            refine ⟨res2, ApiCall.createContainer (createUrl uid)
                  (createParams tok r (imgs.get? (i + 1)) (some last) false Option.none) ::
                ApiCall.publishContainer (publishUrl uid) tok (contOpt.getD "") :: ext2,
              ?_, ?_, hok2⟩
            · show replyLoop uid tok imgs s i last (r :: rest) = _
              simp only [replyLoop, createContainerRun_def, hr, htc, if_true,
                publishContainerRun_def, hp, htp, List.append_assoc,
                List.singleton_append, List.cons_append, List.nil_append]
              rw [heq2]
              simp only [Prod.mk.injEq, NetState.mk.injEq, List.length_cons,
                List.append_assoc, List.singleton_append, List.cons_append]
              exact ⟨trivial, trivial, by omega, by simp⟩
            · intro c hcm
              rcases List.mem_cons.mp hcm with h | h
              · subst h
                exact hcr
              · rcases List.mem_cons.mp h with h2 | h2
                · subst h2
                  exact Or.inr ⟨_, rfl⟩
                · exact hmem2 c h2
          · refine ⟨Except.ok last, [ApiCall.createContainer (createUrl uid)
                (createParams tok r (imgs.get? (i + 1)) (some last) false Option.none),
              ApiCall.publishContainer (publishUrl uid) tok (contOpt.getD "")], ?_, ?_, ?_⟩
            · show replyLoop uid tok imgs s i last (r :: rest) = _
              simp only [replyLoop, createContainerRun_def, hr, htc, if_true,
                publishContainerRun_def, hp, htp, if_false]
              simp only [Prod.mk.injEq, NetState.mk.injEq, List.length_cons,
                List.length_nil, List.append_assoc, List.singleton_append]
              constructor
            · intro c hcm
              rcases List.mem_cons.mp hcm with h | h
              · subst h
                exact hcr
              · have h2 := mem_singleton_cases h
                subst h2
                exact Or.inr ⟨_, rfl⟩
            · intro _
              exact ⟨last, rfl⟩
      · refine ⟨Except.ok last, [ApiCall.createContainer (createUrl uid)
            (createParams tok r (imgs.get? (i + 1)) (some last) false Option.none)],
          ?_, ?_, ?_⟩
        · show replyLoop uid tok imgs s i last (r :: rest) = _
          simp only [replyLoop, createContainerRun_def, hr, htc, if_false]
          rfl
        · intro c hcm
          have h := mem_singleton_cases hcm
          subst h
          exact hcr
        · intro _
          exact ⟨last, rfl⟩

/-- Trace extension of the citation phase, for an arbitrary oracle: only
standard (non-carousel) creations and publications at the user's urls are
issued, and without transport errors the phase cannot raise and the run ends
reporting `True`. -/
lemma citationPhase_ext (uid : Option String) (tok src last : String) (s : NetState) :
    ∃ res ext, citationPhase uid tok src last s = ⟨res, s.trace ++ ext⟩ ∧
      (∀ c ∈ ext, StdChainCall uid tok c) ∧
      (NoTransportError s.oracle → res = Except.ok true) := by
  have hcr : StdChainCall uid tok (ApiCall.createContainer (createUrl uid)
      (createParams tok ("출처: " ++ src) Option.none (some last) false Option.none)) :=
    Or.inl ⟨_, rfl, createParams_std_no_carousel tok _ Option.none (some last)⟩
  rcases hr : containerResult (s.oracle s.idx) with e | srcOpt
  · refine ⟨Except.error e, [ApiCall.createContainer (createUrl uid)
        (createParams tok ("출처: " ++ src) Option.none (some last) false Option.none)],
      ?_, ?_, ?_⟩
    · simp only [citationPhase, createContainerRun_def, hr]
    · intro c hcm
      have h := mem_singleton_cases hcm
      subst h
      exact hcr
    · intro hnt
      rcases containerResult_ok_of_ne (s.oracle s.idx) (hnt s.idx) with ⟨o, ho⟩
      rw [hr] at ho
      cases ho
  · by_cases htc : truthy srcOpt
    · rcases hp : publishResult (s.oracle (s.idx + 1)) with e | pubOpt
      · refine ⟨Except.error e, [ApiCall.createContainer (createUrl uid)
            (createParams tok ("출처: " ++ src) Option.none (some last) false Option.none),
          ApiCall.publishContainer (publishUrl uid) tok (srcOpt.getD "")], ?_, ?_, ?_⟩
        · simp only [citationPhase, createContainerRun_def, hr, htc, if_true,
            publishContainerRun_def, hp]
          simp only [RunOutcome.mk.injEq, List.append_assoc, List.singleton_append]
        · intro c hcm
          rcases List.mem_cons.mp hcm with h | h
          · subst h
            exact hcr
          · have h2 := mem_singleton_cases h
            subst h2
            exact Or.inr ⟨_, rfl⟩
        · intro hnt
          rcases publishResult_ok_of_ne (s.oracle (s.idx + 1)) (hnt _) with ⟨o, ho⟩
          rw [hp] at ho
          cases ho
      · refine ⟨Except.ok true, [ApiCall.createContainer (createUrl uid)
            (createParams tok ("출처: " ++ src) Option.none (some last) false Option.none),
          ApiCall.publishContainer (publishUrl uid) tok (srcOpt.getD "")], ?_, ?_,
          fun _ => rfl⟩
        · simp only [citationPhase, createContainerRun_def, hr, htc, if_true,
            publishContainerRun_def, hp]
          simp only [RunOutcome.mk.injEq, List.append_assoc, List.singleton_append]
        · intro c hcm
          rcases List.mem_cons.mp hcm with h | h
          · subst h
            exact hcr
          · have h2 := mem_singleton_cases h
            subst h2
            exact Or.inr ⟨_, rfl⟩
    · refine ⟨Except.ok true, [ApiCall.createContainer (createUrl uid)
          (createParams tok ("출처: " ++ src) Option.none (some last) false Option.none)],
        ?_, ?_, fun _ => rfl⟩
      · simp [citationPhase, createContainerRun_def, hr, htc]
      · intro c hcm
        have h := mem_singleton_cases hcm
        subst h
        exact hcr

/-! ## Claim C3 — citation text scheme (corrected) -/

/-- C3 counterexample: the claim states every citation text the program
produces is exactly `"출처: " + source_url` (no space before the colon) on all
code paths. At the concrete input `source_url = "http://x"`, `format_output`
produces `"출처 : http://x"` — a space before the colon — which differs from
the claimed text, so the schemes are not applied consistently. -/
theorem citation_scheme_counterexample :
    (format_output ⟨some "single", some "m", some []⟩ Option.none "http://x").source_reply =
      "출처 : http://x" ∧
    "출처 : http://x" ≠ "출처: http://x" := by
  exact ⟨rfl, by decide⟩

/-- C3 (amended): the two citation schemes coexist: the posting path
(`post_to_threads`) renders the citation as `"출처: " + source_url` (no space
before the colon), while the formatter (`format_output`) and the dry-run
printer (`print_dry_run`) both render it as `"출처 : " + source_url` (a space
before the colon). The posting-path part is shown on a fully successful
single-post run, whose fourth request is the citation container creation. -/
theorem citation_scheme_amended (src : String) (d : PostData) (img : Option String)
    (imgs : List String) :
    (format_output d img src).source_reply = "출처 : " ++ src ∧
    ("출처 : " ++ src) ∈ print_dry_run d imgs src ∧
    (post_to_threads ⟨some "single", some "m", Option.none⟩ [] src "t"
        (okOracle fun _ => "p")).trace.get? 3 =
      some (ApiCall.createContainer (createUrl (some "p"))
        { access_token := "t", media_type := "TEXT", text := some ("출처: " ++ src),
          image_url := Option.none, is_carousel_item := Option.none,
          children := Option.none, reply_to_id := some "p" }) := by
  refine ⟨rfl, ?_, rfl⟩
  simp [print_dry_run]

/-! ## Claim C5 — carousel path (confirmed) -/

/-- The ids `idf idx, idf (idx+1), …` of `n` consecutive successful requests
starting at request index `idx`. -/
def idsFrom (idf : Nat → String) : Nat → Nat → List String
  | _, 0 => []
  | idx, n + 1 => idf idx :: idsFrom idf (idx + 1) n

lemma idsFrom_length (idf : Nat → String) : ∀ (n idx : Nat), (idsFrom idf idx n).length = n := by
  intro n
  induction n with
  | zero => intro idx; rfl
  | succ n ih => intro idx; simp [idsFrom, ih]

lemma idsFrom_get? (idf : Nat → String) : ∀ (n m idx : Nat), m < n →
    (idsFrom idf idx n).get? m = some (idf (idx + m)) := by
  intro n
  induction n with
  | zero => intro m idx h; omega
  | succ n ih =>
    intro m idx h
    cases m with
    | zero => simp [idsFrom]
    | succ m =>
      show (idsFrom idf idx (n + 1)).get? (m + 1) = _
      rw [idsFrom, List.get?_cons_succ, ih m (idx + 1) (by omega)]
      congr 2
      omega

lemma idsFrom_ne (idf : Nat → String) (hid : ∀ n, idf n ≠ "") :
    ∀ (n idx : Nat), ∀ u ∈ idsFrom idf idx n, u ≠ "" := by
  intro n
  induction n with
  | zero => intro idx u hu; cases hu
  | succ n ih =>
    intro idx u hu
    rcases List.mem_cons.mp hu with h | h
    · subst h; exact hid idx
    · exact ih (idx + 1) u h

lemma collectTruthy_map_some : ∀ (l : List String), (∀ u ∈ l, u ≠ "") →
    collectTruthy (l.map some) = l := by
  intro l
  induction l with
  | nil => intro _; rfl
  | cons a l ih =>
    intro h
    have ha : truthy (some a) = true := (truthy_some_iff a).mpr (h a (by simp))
    simp [collectTruthy, ha, ih (fun u hu => h u (by simp [hu]))]

/-- The request parameters the specification prescribes for one carousel-item
container: media type IMAGE, the item's image, the carousel-item marker, no
text, no children, no anchor — and the item is never published. (Spec-side
definition, for refinement comparison.) -/
def specItemParams (tok img : String) : ReqParams :=
  { access_token := tok, media_type := "IMAGE", text := Option.none,
    image_url := some img, is_carousel_item := some "true",
    children := Option.none, reply_to_id := Option.none }

/-- The request parameters the specification prescribes for the parent
carousel container: media type CAROUSEL, the root text, the comma-joined
creation ids of the item containers in original order, no image, no anchor.
(Spec-side definition, for refinement comparison.) -/
def specCarouselParams (tok root : String) (childIds : List String) : ReqParams :=
  { access_token := tok, media_type := "CAROUSEL", text := some root,
    image_url := Option.none, is_carousel_item := Option.none,
    children := some (String.intercalate "," childIds),
    reply_to_id := Option.none }

lemma itemCall_spec (uid : Option String) (tok img : String) :
    itemCall uid tok img =
      ApiCall.createContainer (createUrl uid) (specItemParams tok img) := rfl

lemma itemCall_map_spec (uid : Option String) (tok : String) : ∀ (imgs : List String),
    List.map (itemCall uid tok) imgs =
      List.map (fun img => ApiCall.createContainer (createUrl uid)
        (specItemParams tok img)) imgs := by
  intro imgs
  induction imgs with
  | nil => rfl
  | cons img rest ih =>
    rw [List.map_cons, List.map_cons, ih]
    rfl

lemma createParams_carousel_spec (tok text : String) (ids : List String) (h : ids ≠ []) :
    createParams tok text Option.none Option.none false (some ids) =
      specCarouselParams tok text ids := by
  rcases ids with _ | ⟨c, cs⟩
  · exact absurd rfl h
  · rfl

/-- The full request chain the specification prescribes for a fully
successful Single-with-multiple-images (carousel) run under response ids
`idf`: user resolution; one unpublished carousel-item container per image, in
original order; one parent CAROUSEL container carrying the root text and the
item creation ids, the only root container published; then the citation post.
(Spec-side definition, for refinement comparison.) -/
def specCarouselRunTrace (root : String) (imgs : List String) (src tok : String)
    (idf : Nat → String) : List ApiCall :=
  ApiCall.getMe meUrl tok ::
    (imgs.map (fun img => ApiCall.createContainer (createUrl (some (idf 0)))
        (specItemParams tok img)) ++
      [ApiCall.createContainer (createUrl (some (idf 0)))
          (specCarouselParams tok root (idsFrom idf 1 imgs.length)),
        ApiCall.publishContainer (publishUrl (some (idf 0))) tok (idf (1 + imgs.length)),
        ApiCall.createContainer (createUrl (some (idf 0)))
          (specPostParams tok ("출처: " ++ src) Option.none
            (some (idf (1 + imgs.length + 1)))),
        ApiCall.publishContainer (publishUrl (some (idf 0))) tok
          (idf (1 + imgs.length + 1 + 1))])

/-- A fully successful Single-with-multiple-images run follows the carousel
path and issues exactly the spec-prescribed request chain. -/
lemma post_single_carousel_trace (root src tok : String) (rep : Option (List String))
    (imgs : List String) (idf : Nat → String) (hid : ∀ n, idf n ≠ "")
    (h2 : 1 < imgs.length) :
    post_to_threads ⟨some "single", some root, rep⟩ imgs src tok (okOracle idf) =
      { result := Except.ok true,
        trace := specCarouselRunTrace root imgs src tok idf } := by
  have hbs : ((idsFrom idf 1 imgs.length).map some).length = imgs.length := by
    simp [idsFrom_length]
  have hresp : ∀ m o, ((idsFrom idf 1 imgs.length).map some).get? m = some o →
      containerResult (okOracle idf (1 + m)) = Except.ok o := by
    intro m o hm
    rw [List.get?_map] at hm
    by_cases hmlt : m < imgs.length
    · rw [idsFrom_get? idf imgs.length m 1 hmlt] at hm
      simp only [Option.map_some', Option.some.injEq] at hm
      subst hm
      rfl
    · rw [List.get?_eq_none.mpr (by rw [idsFrom_length]; omega)] at hm
      cases hm
  have hscript := createItems_script (some (idf 0)) tok imgs
      ((idsFrom idf 1 imgs.length).map some)
      ⟨okOracle idf, 1, [ApiCall.getMe meUrl tok]⟩ hbs hresp
  rw [collectTruthy_map_some _ (idsFrom_ne idf hid imgs.length 1)] at hscript
  have hidsne : idsFrom idf 1 imgs.length ≠ [] := by
    intro h
    have hl := idsFrom_length idf imgs.length 1
    rw [h] at hl
    simp at hl
    omega
  have hlen0 : 0 < (idsFrom idf 1 imgs.length).length := by
    rw [idsFrom_length]
    omega
  have hpar := createParams_carousel_spec tok root _ hidsne
  have ht : ∀ n, truthy (some (idf n)) = true := fun n => (truthy_some_iff _).mpr (hid n)
  have hme : meOutcome (okOracle idf 0) = some (some (idf 0)) := rfl
  have hcres : ∀ n, containerResult (okOracle idf n) = Except.ok (some (idf n)) :=
    fun _ => rfl
  have hpres : ∀ n, publishResult (okOracle idf n) = Except.ok (some (idf n)) :=
    fun _ => rfl
  have hcit := createParams_std_spec tok ("출처: " ++ src) Option.none
      (some (idf (1 + imgs.length + 1))) (fun u hu => absurd hu (by simp))
      (fun a ha => by rw [Option.some.injEq] at ha; subst ha; exact hid _)
  simp [post_to_threads, rootContainerPhase, citationPhase, callNet,
    createContainerRun_def, publishContainerRun_def, hme, hcres, hpres, hscript,
    hlen0, ht, h2, Option.getD_some, specCarouselRunTrace, hpar, hcit,
    itemCall_map_spec]

/-- The standard (non-carousel) root phase is a single unanchored creation
with `image_urls[0]` (when present). -/
lemma rootPhase_std (data : PostData) (imgs : List String) (uid : Option String)
    (tok : String) (s : NetState)
    (hnc : ¬ (data.type_field.getD "single" = "single" ∧ 1 < imgs.length)) :
    rootContainerPhase data imgs uid tok s =
      (containerResult (s.oracle s.idx),
       ⟨s.oracle, s.idx + 1, s.trace ++ [ApiCall.createContainer (createUrl uid)
          (createParams tok (data.main_post_field.getD "") imgs.head? Option.none
            false Option.none)]⟩) := by
  unfold rootContainerPhase
  rw [if_neg hnc, createContainerRun_def]

/-- `post_to_threads` after a successful user resolution, with the remaining
pipeline exposed. -/
lemma post_to_threads_unfold (data : PostData) (imgs : List String) (src tok : String)
    (ω : Nat → HttpResp) (uid : Option String) (hme : meOutcome (ω 0) = some uid) :
    post_to_threads data imgs src tok ω =
      (let phase1 := rootContainerPhase data imgs uid tok
          ⟨ω, 1, [ApiCall.getMe meUrl tok]⟩
       match phase1.1 with
       | Except.error e => { result := Except.error e, trace := phase1.2.trace }
       | Except.ok containerOpt =>
         if truthy containerOpt then
           let pub := publishContainerRun phase1.2 uid tok (containerOpt.getD "")
           match pub.1 with
           | Except.error e => { result := Except.error e, trace := pub.2.trace }
           | Except.ok mainOpt =>
             if truthy mainOpt then
               let rl := if data.type_field = some "multi" then
                   replyLoop uid tok imgs pub.2 0 (mainOpt.getD "")
                     (data.replies_field.getD [])
                 else (Except.ok (mainOpt.getD ""), pub.2)
               match rl.1 with
               | Except.error e => { result := Except.error e, trace := rl.2.trace }
               | Except.ok last_post_id => citationPhase uid tok src last_post_id rl.2
             else { result := Except.ok false, trace := pub.2.trace }
         else { result := Except.ok false, trace := phase1.2.trace }) := by
  simp only [post_to_threads, callNet]
  rw [hme]
  rfl

lemma replyLoop_trace (uid : Option String) (tok : String) (imgs : List String)
    (rs : List String) (s : NetState) (i : Nat) (last : String) :
    ∃ ext, (replyLoop uid tok imgs s i last rs).2.trace = s.trace ++ ext ∧
      ∀ c ∈ ext, StdChainCall uid tok c := by
  rcases replyLoop_ext uid tok imgs rs s i last with ⟨res, ext, heq, hmem, _⟩
  rw [heq]
  exact ⟨ext, rfl, hmem⟩

lemma citationPhase_trace (uid : Option String) (tok src last : String) (s : NetState) :
    ∃ ext, (citationPhase uid tok src last s).trace = s.trace ++ ext ∧
      ∀ c ∈ ext, StdChainCall uid tok c := by
  rcases citationPhase_ext uid tok src last s with ⟨res, ext, heq, hmem, _⟩
  rw [heq]
  exact ⟨ext, rfl, hmem⟩

/-- Master trace characterization of a run with resolved user id: the trace
is the me-request, then the root-phase calls `extR`, then only standard
chain calls; in particular it has at least two requests. -/
lemma post_tail_facts (data : PostData) (imgs : List String) (src tok : String)
    (ω : Nat → HttpResp) (uid : Option String) (resR : Except PyError (Option String))
    (extR : List ApiCall) (hme : meOutcome (ω 0) = some uid)
    (heqR : rootContainerPhase data imgs uid tok ⟨ω, 1, [ApiCall.getMe meUrl tok]⟩ =
      (resR, ⟨ω, 1 + extR.length, [ApiCall.getMe meUrl tok] ++ extR⟩))
    (hneR : extR ≠ []) :
    (∀ c ∈ (post_to_threads data imgs src tok ω).trace,
      c = ApiCall.getMe meUrl tok ∨ c ∈ extR ∨ StdChainCall uid tok c) ∧
    2 ≤ (post_to_threads data imgs src tok ω).trace.length ∧
    (∃ t, (post_to_threads data imgs src tok ω).trace =
      ([ApiCall.getMe meUrl tok] ++ extR) ++ t) := by
  rw [post_to_threads_unfold data imgs src tok ω uid hme]
  simp only [heqR]
  have hbase : ∀ c ∈ [ApiCall.getMe meUrl tok] ++ extR,
      c = ApiCall.getMe meUrl tok ∨ c ∈ extR ∨ StdChainCall uid tok c := by
    intro c hc
    rcases List.mem_append.mp hc with h | h
    · exact Or.inl (mem_singleton_cases h)
    · exact Or.inr (Or.inl h)
  have hlen : 2 ≤ ([ApiCall.getMe meUrl tok] ++ extR).length := by
    rcases extR with _ | ⟨a, l⟩
    · exact absurd rfl hneR
    · simp only [List.length_append, List.length_cons, List.length_nil]
      omega
  rcases resR with e | co
  · exact ⟨hbase, hlen, [], by simp⟩
  · by_cases htc : truthy co
    · rcases hpr : publishResult (ω (1 + extR.length)) with e | po
      · simp only [htc, if_true, publishContainerRun_def, hpr]
        refine ⟨?_, ?_, ⟨[ApiCall.publishContainer (publishUrl uid) tok (co.getD "")], rfl⟩⟩
        · intro c hc
          rcases List.mem_append.mp hc with h | h
          · exact hbase c h
          · have h2 := mem_singleton_cases h
            subst h2
            exact Or.inr (Or.inr (Or.inr ⟨_, rfl⟩))
        · simp only [List.length_append, List.length_cons, List.length_nil]
          omega
      · by_cases htp : truthy po
        · simp only [htc, if_true, publishContainerRun_def, hpr, htp]
          by_cases hm : data.type_field = some "multi"
          · rw [if_pos hm]
            rcases replyLoop_trace uid tok imgs (data.replies_field.getD [])
                ⟨ω, 1 + extR.length + 1,
                  ([ApiCall.getMe meUrl tok] ++ extR) ++
                    [ApiCall.publishContainer (publishUrl uid) tok (co.getD "")]⟩ 0
                (po.getD "") with ⟨extL, heqL, hmemL⟩
            rcases hrl : replyLoop uid tok imgs
                ⟨ω, 1 + extR.length + 1,
                  ([ApiCall.getMe meUrl tok] ++ extR) ++
                    [ApiCall.publishContainer (publishUrl uid) tok (co.getD "")]⟩ 0
                (po.getD "") (data.replies_field.getD []) with ⟨resL, stL⟩
            rw [hrl] at heqL
            have heqL2 : stL.trace = (([ApiCall.getMe meUrl tok] ++ extR) ++
                [ApiCall.publishContainer (publishUrl uid) tok (co.getD "")]) ++ extL :=
              heqL
            have hdisp : ∀ c ∈ stL.trace,
                c = ApiCall.getMe meUrl tok ∨ c ∈ extR ∨ StdChainCall uid tok c := by
              intro c hc
              rw [heqL2] at hc
              rcases List.mem_append.mp hc with h | h
              · rcases List.mem_append.mp h with h2 | h2
                · exact hbase c h2
                · have h3 := mem_singleton_cases h2
                  subst h3
                  exact Or.inr (Or.inr (Or.inr ⟨_, rfl⟩))
              · exact Or.inr (Or.inr (hmemL c h))
            have hlen3 : 2 ≤ stL.trace.length := by
              rw [heqL2]
              simp only [List.length_append, List.length_cons, List.length_nil]
              omega
            rcases resL with e | last
            · refine ⟨hdisp, hlen3, [ApiCall.publishContainer (publishUrl uid) tok
                  (co.getD "")] ++ extL, ?_⟩
              show stL.trace = _
              rw [heqL2, List.append_assoc]
            · rcases citationPhase_trace uid tok src last stL with ⟨extC, heqC, hmemC⟩
              refine ⟨?_, ?_, ([ApiCall.publishContainer (publishUrl uid) tok
                  (co.getD "")] ++ extL) ++ extC, ?_⟩
              · intro c hc
                rw [heqC] at hc
                rcases List.mem_append.mp hc with h | h
                · exact hdisp c h
                · exact Or.inr (Or.inr (hmemC c h))
              · show 2 ≤ (citationPhase uid tok src last stL).trace.length
                rw [heqC, List.length_append]
                omega
              · show (citationPhase uid tok src last stL).trace = _
                rw [heqC, heqL2]
                simp [List.append_assoc]
          · rw [if_neg hm]
            rcases citationPhase_trace uid tok src (po.getD "")
                ⟨ω, 1 + extR.length + 1,
                  ([ApiCall.getMe meUrl tok] ++ extR) ++
                    [ApiCall.publishContainer (publishUrl uid) tok (co.getD "")]⟩ with
              ⟨extC, heqC, hmemC⟩
            have heqC2 : (citationPhase uid tok src (po.getD "")
                ⟨ω, 1 + extR.length + 1,
                  ([ApiCall.getMe meUrl tok] ++ extR) ++
                    [ApiCall.publishContainer (publishUrl uid) tok (co.getD "")]⟩).trace =
                (([ApiCall.getMe meUrl tok] ++ extR) ++
                  [ApiCall.publishContainer (publishUrl uid) tok (co.getD "")]) ++ extC :=
              heqC
            refine ⟨?_, ?_, [ApiCall.publishContainer (publishUrl uid) tok
                (co.getD "")] ++ extC, ?_⟩
            · intro c hc
              rw [heqC2] at hc
              rcases List.mem_append.mp hc with h | h
              · rcases List.mem_append.mp h with h2 | h2
                · exact hbase c h2
                · have h3 := mem_singleton_cases h2
                  subst h3
                  exact Or.inr (Or.inr (Or.inr ⟨_, rfl⟩))
              · exact Or.inr (Or.inr (hmemC c h))
            · rw [heqC2]
              simp only [List.length_append, List.length_cons, List.length_nil]
              omega
            · rw [heqC2]
              simp [List.append_assoc]
        · simp only [htc, if_true, publishContainerRun_def, hpr, htp, Bool.false_eq_true, if_false]
          refine ⟨?_, ?_, ⟨[ApiCall.publishContainer (publishUrl uid) tok (co.getD "")], rfl⟩⟩
          · intro c hc
            rcases List.mem_append.mp hc with h | h
            · exact hbase c h
            · have h2 := mem_singleton_cases h
              subst h2
              exact Or.inr (Or.inr (Or.inr ⟨_, rfl⟩))
          · simp only [List.length_append, List.length_cons, List.length_nil]
            omega
    · simp only [htc, if_false]
      exact ⟨hbase, hlen, [], by simp⟩

/-- Outside the Single-with-more-than-one-image case, no request of a run
ever carries the carousel-item marker or a children list, whatever the oracle
answers. -/
lemma post_no_carousel_calls (data : PostData) (imgs : List String)
    (src tok : String) (ω : Nat → HttpResp)
    (hnc : ¬ (data.type_field.getD "single" = "single" ∧ 1 < imgs.length)) :
    ∀ c ∈ (post_to_threads data imgs src tok ω).trace, ∀ url ps,
      c = ApiCall.createContainer url ps →
      ps.is_carousel_item = Option.none ∧ ps.children = Option.none := by
  intro c hc url ps hceq
  subst hceq
  rcases hme : meOutcome (ω 0) with _ | uid
  · have htr : (post_to_threads data imgs src tok ω).trace = [ApiCall.getMe meUrl tok] := by
      simp only [post_to_threads, callNet]
      rw [hme]
      rfl
    rw [htr] at hc
    have h := mem_singleton_cases hc
    simp at h
  · have heqR := rootPhase_std data imgs uid tok ⟨ω, 1, [ApiCall.getMe meUrl tok]⟩ hnc
    have hfacts := post_tail_facts data imgs src tok ω uid (containerResult (ω 1))
        [ApiCall.createContainer (createUrl uid)
          (createParams tok (data.main_post_field.getD "") imgs.head? Option.none
            false Option.none)] hme heqR (by simp)
    rcases hfacts.1 _ hc with h | h | h
    · simp at h
    · have h2 := mem_singleton_cases h
      rw [ApiCall.createContainer.injEq] at h2
      rw [h2.2]
      exact createParams_std_no_carousel tok _ imgs.head? Option.none
    · rcases h with ⟨ps2, hps2, hici, hch⟩ | ⟨cid, hcid⟩
      · rw [ApiCall.createContainer.injEq] at hps2
        rw [hps2.2]
        exact ⟨hici, hch⟩
      · simp at hcid

/-- C5: when the content type is single, `post_to_threads` takes the carousel
path exactly when more than one image is given. First part: on the carousel
path, every image becomes — in original order — an unpublished carousel-item
container (media type IMAGE, `is_carousel_item` marker, no text, no
`reply_to_id`), and a single parent CAROUSEL container carrying the root text
and the item creation ids is the only root container published (full trace
refinement against `specCarouselRunTrace`). Second part: with at most one
image for single content, or with multi-type content of any image count, no
request of the run ever carries the carousel-item marker or a children
list. -/
theorem carousel_path_characterization :
    (∀ (root src tok : String) (rep : Option (List String)) (imgs : List String)
        (idf : Nat → String), (∀ n, idf n ≠ "") → 1 < imgs.length →
      post_to_threads ⟨some "single", some root, rep⟩ imgs src tok (okOracle idf) =
        { result := Except.ok true,
          trace := specCarouselRunTrace root imgs src tok idf }) ∧
    (∀ (data : PostData) (imgs : List String) (src tok : String) (ω : Nat → HttpResp),
      ¬ (data.type_field.getD "single" = "single" ∧ 1 < imgs.length) →
      ∀ c ∈ (post_to_threads data imgs src tok ω).trace, ∀ url ps,
        c = ApiCall.createContainer url ps →
        ps.is_carousel_item = Option.none ∧ ps.children = Option.none) :=
  ⟨fun root src tok rep imgs idf hid h2 =>
      post_single_carousel_trace root src tok rep imgs idf hid h2,
    fun data imgs src tok ω hnc => post_no_carousel_calls data imgs src tok ω hnc⟩

/-- C5 witness: a Single run with two images on an all-success oracle follows
the spec-prescribed carousel chain, and in a Multi run with one image the
root creation request carries neither carousel marker nor children. -/
theorem carousel_path_characterization_witness :
    (post_to_threads ⟨some "single", some "m", Option.none⟩ ["a", "b"] "u" "t"
        (okOracle fun _ => "p") =
      { result := Except.ok true,
        trace := specCarouselRunTrace "m" ["a", "b"] "u" "t" (fun _ => "p") }) ∧
    ((createParams "t" "m" (some "x") Option.none false Option.none).is_carousel_item
        = Option.none ∧
      (createParams "t" "m" (some "x") Option.none false Option.none).children
        = Option.none) := by
  refine ⟨carousel_path_characterization.1 "m" "u" "t" Option.none ["a", "b"]
      (fun _ => "p") (fun n => by show ("p" : String) ≠ ""; decide) (by decide), ?_⟩
  exact carousel_path_characterization.2 ⟨some "multi", some "m", some []⟩ ["x"] "u" "t"
    (okOracle fun _ => "p") (by decide)
    (ApiCall.createContainer (createUrl (some "p"))
      (createParams "t" "m" (some "x") Option.none false Option.none))
    (by decide)
    (createUrl (some "p")) (createParams "t" "m" (some "x") Option.none false Option.none)
    rfl

/-! ## Claim C6 — partial carousel (confirmed) -/

/-- Oracle for a carousel run under an item outcome script `bs`: request 0
resolves the user id `uid`, request `1 + m` is the m-th item creation — a 2xx
response with id when `bs[m] = some id`, a non-2xx failure when
`bs[m] = none` — and every request beyond the items succeeds with id
`idf n`. -/
def mixOracle (uid : String) (bs : List (Option String)) (idf : Nat → String) :
    Nat → HttpResp :=
  fun n =>
    if n = 0 then okIdResp uid
    else match bs.get? (n - 1) with
      | some (some id) => okIdResp id
      | some Option.none => errResp
      | Option.none => okIdResp (idf n)

/-- C6: in the carousel path (Single content, more than one image), with item
creation outcomes scripted by `bs` and everything after the items
succeeding, the run aborts — reporting `False` with no parent carousel
container created — exactly when zero item creations succeeded (while
`imgs.length > 1 ≥ 1` were attempted); and when at least one succeeded, the
pipeline proceeds to build the parent carousel whose children are exactly the
subset of item ids that succeeded, in order, and the run completes. -/
theorem carousel_partial_items (root src tok uid : String) (imgs : List String)
    (bs : List (Option String)) (idf : Nat → String)
    (hlen : bs.length = imgs.length) (h2 : 1 < imgs.length)
    (hid : ∀ n, idf n ≠ "") :
    ((post_to_threads ⟨some "single", some root, Option.none⟩ imgs src tok
        (mixOracle uid bs idf)).result = Except.ok false ↔ collectTruthy bs = []) ∧
    (collectTruthy bs = [] →
      post_to_threads ⟨some "single", some root, Option.none⟩ imgs src tok
          (mixOracle uid bs idf) =
        { result := Except.ok false,
          trace := ApiCall.getMe meUrl tok :: imgs.map (itemCall (some uid) tok) }) ∧
    (collectTruthy bs ≠ [] →
      post_to_threads ⟨some "single", some root, Option.none⟩ imgs src tok
          (mixOracle uid bs idf) =
        { result := Except.ok true,
          trace := ApiCall.getMe meUrl tok :: (imgs.map (itemCall (some uid) tok) ++
            [ApiCall.createContainer (createUrl (some uid))
                (specCarouselParams tok root (collectTruthy bs)),
              ApiCall.publishContainer (publishUrl (some uid)) tok
                (idf (1 + imgs.length)),
              ApiCall.createContainer (createUrl (some uid))
                (specPostParams tok ("출처: " ++ src) Option.none
                  (some (idf (1 + imgs.length + 1)))),
              ApiCall.publishContainer (publishUrl (some uid)) tok
                (idf (1 + imgs.length + 1 + 1))]) }) := by
  have hme2 : meOutcome (mixOracle uid bs idf 0) = some (some uid) := rfl
  have hresp : ∀ m o, bs.get? m = some o →
      containerResult (mixOracle uid bs idf (1 + m)) = Except.ok o := by
    intro m o hm
    have h0 : ¬ (1 + m = 0) := by omega
    have h1 : 1 + m - 1 = m := by omega
    simp only [mixOracle, if_neg h0, h1, hm]
    rcases o with _ | id <;> rfl
  have hscript := createItems_script (some uid) tok imgs bs
      ⟨mixOracle uid bs idf, 1, [ApiCall.getMe meUrl tok]⟩ hlen hresp
  have hb : ∀ n, imgs.length < n → mixOracle uid bs idf n = okIdResp (idf n) := by
    intro n h
    have h0 : ¬ (n = 0) := by omega
    simp only [mixOracle, if_neg h0]
    rw [List.get?_eq_none.mpr (by omega)]
  have hp1 : containerResult (mixOracle uid bs idf (1 + imgs.length)) =
      Except.ok (some (idf (1 + imgs.length))) := by
    rw [hb _ (by omega)]
    rfl
  have hp2 : publishResult (mixOracle uid bs idf (1 + imgs.length + 1)) =
      Except.ok (some (idf (1 + imgs.length + 1))) := by
    rw [hb _ (by omega)]
    rfl
  have hp3 : containerResult (mixOracle uid bs idf (1 + imgs.length + 1 + 1)) =
      Except.ok (some (idf (1 + imgs.length + 1 + 1))) := by
    rw [hb _ (by omega)]
    rfl
  have hp4 : publishResult (mixOracle uid bs idf (1 + imgs.length + 1 + 1 + 1)) =
      Except.ok (some (idf (1 + imgs.length + 1 + 1 + 1))) := by
    rw [hb _ (by omega)]
    rfl
  have ht : ∀ n, truthy (some (idf n)) = true := fun n => (truthy_some_iff _).mpr (hid n)
  by_cases hempty : collectTruthy bs = []
  · have hrunE : post_to_threads ⟨some "single", some root, Option.none⟩ imgs src tok
        (mixOracle uid bs idf) =
        { result := Except.ok false,
          trace := ApiCall.getMe meUrl tok :: imgs.map (itemCall (some uid) tok) } := by
      rw [hempty] at hscript
      simp [post_to_threads, rootContainerPhase, callNet, hme2, hscript, h2,
        truthy_none]
    refine ⟨?_, fun _ => hrunE, fun hne => absurd hempty hne⟩
    rw [hrunE]
    simp [hempty]
  · have hlen0 : 0 < (collectTruthy bs).length := List.length_pos.mpr hempty
    have hpar := createParams_carousel_spec tok root _ hempty
    have hcit := createParams_std_spec tok ("출처: " ++ src) Option.none
        (some (idf (1 + imgs.length + 1))) (fun u hu => absurd hu (by simp))
        (fun a ha => by rw [Option.some.injEq] at ha; subst ha; exact hid _)
    have hrunN : post_to_threads ⟨some "single", some root, Option.none⟩ imgs src tok
        (mixOracle uid bs idf) =
        { result := Except.ok true,
          trace := ApiCall.getMe meUrl tok :: (imgs.map (itemCall (some uid) tok) ++
            [ApiCall.createContainer (createUrl (some uid))
                (specCarouselParams tok root (collectTruthy bs)),
              ApiCall.publishContainer (publishUrl (some uid)) tok
                (idf (1 + imgs.length)),
              ApiCall.createContainer (createUrl (some uid))
                (specPostParams tok ("출처: " ++ src) Option.none
                  (some (idf (1 + imgs.length + 1)))),
              ApiCall.publishContainer (publishUrl (some uid)) tok
                (idf (1 + imgs.length + 1 + 1))]) } := by
      simp [post_to_threads, rootContainerPhase, citationPhase, callNet,
        createContainerRun_def, publishContainerRun_def, hme2, hscript, hlen0,
        hp1, hp2, hp3, hp4, ht, h2, hpar, hcit, Option.getD_some]
    refine ⟨?_, fun h => absurd h hempty, fun _ => hrunN⟩
    rw [hrunN]
    simp [hempty]

/-- C6 witness: two images where the first item creation succeeds with id
"i1" and the second fails — the parent carousel is built with children
exactly "i1" and the run completes. -/
theorem carousel_partial_items_witness :
    ((post_to_threads ⟨some "single", some "m", Option.none⟩ ["a", "b"] "u" "t"
        (mixOracle "U" [some "i1", Option.none] (fun _ => "p"))).result =
          Except.ok false ↔ collectTruthy [some "i1", Option.none] = []) ∧
    (collectTruthy [some "i1", Option.none] = [] →
      post_to_threads ⟨some "single", some "m", Option.none⟩ ["a", "b"] "u" "t"
          (mixOracle "U" [some "i1", Option.none] (fun _ => "p")) =
        { result := Except.ok false,
          trace := ApiCall.getMe meUrl "t" ::
            ["a", "b"].map (itemCall (some "U") "t") }) ∧
    (collectTruthy [some "i1", Option.none] ≠ [] →
      post_to_threads ⟨some "single", some "m", Option.none⟩ ["a", "b"] "u" "t"
          (mixOracle "U" [some "i1", Option.none] (fun _ => "p")) =
        { result := Except.ok true,
          trace := ApiCall.getMe meUrl "t" :: (["a", "b"].map (itemCall (some "U") "t") ++
            [ApiCall.createContainer (createUrl (some "U"))
                (specCarouselParams "t" "m" (collectTruthy [some "i1", Option.none])),
              ApiCall.publishContainer (publishUrl (some "U")) "t"
                ((fun _ => "p") (1 + (["a", "b"] : List String).length)),
              ApiCall.createContainer (createUrl (some "U"))
                (specPostParams "t" ("출처: " ++ "u") Option.none
                  (some ((fun _ => "p") (1 + (["a", "b"] : List String).length + 1)))),
              ApiCall.publishContainer (publishUrl (some "U")) "t"
                ((fun _ => "p") (1 + (["a", "b"] : List String).length + 1 + 1))]) }) :=
  carousel_partial_items "m" "u" "t" "U" ["a", "b"] [some "i1", Option.none]
    (fun _ => "p") rfl (by decide) (fun n => by show ("p" : String) ≠ ""; decide)

/-! ## Claim C10 — missing id in the /me response (confirmed) -/

/-- The url a recorded request was sent to. -/
def urlOf : ApiCall → String
  | .getMe url _ => url
  | .createContainer url _ => url
  | .publishContainer url _ _ => url

/-- C10: when `GET /me` returns a 2xx JSON body without an `id` field,
`post_to_threads` does not abort at user resolution: it proceeds with
`user_id = None` and issues every subsequent container-creation and publish
request against URLs built by interpolating that `None` — literally
`…/None/threads` and `…/None/threads_publish` — whatever the rest of the
oracle answers. -/
theorem me_missing_id_runs_with_none_userid (data : PostData) (imgs : List String)
    (src tok body : String) (ω : Nat → HttpResp)
    (h0 : ω 0 = HttpResp.response true (some Option.none) body) :
    createUrl Option.none = "https://graph.threads.net/v1.0/None/threads" ∧
    publishUrl Option.none = "https://graph.threads.net/v1.0/None/threads_publish" ∧
    2 ≤ (post_to_threads data imgs src tok ω).trace.length ∧
    (post_to_threads data imgs src tok ω).trace.get? 0 =
      some (ApiCall.getMe meUrl tok) ∧
    (∀ c ∈ (post_to_threads data imgs src tok ω).trace,
      c = ApiCall.getMe meUrl tok ∨
      urlOf c = createUrl Option.none ∨ urlOf c = publishUrl Option.none) := by
  have hme : meOutcome (ω 0) = some Option.none := by rw [h0]; rfl
  rcases rootPhase_ext data imgs Option.none tok ⟨ω, 1, [ApiCall.getMe meUrl tok]⟩ with
    ⟨resR, extR, heqR, hmemR, hneR, _⟩
  have hfacts := post_tail_facts data imgs src tok ω Option.none resR extR hme heqR hneR
  refine ⟨rfl, rfl, hfacts.2.1, ?_, ?_⟩
  · rcases hfacts.2.2 with ⟨t, ht⟩
    rw [ht]
    simp
  · intro c hc
    rcases hfacts.1 c hc with h | h | h
    · exact Or.inl h
    · rcases hmemR c h with ⟨ps, hps, _⟩
      right
      left
      rw [hps]
      rfl
    · rcases h with ⟨ps, hps, _, _⟩ | ⟨cid, hcid⟩
      · right
        left
        rw [hps]
        rfl
      · right
        right
        rw [hcid]
        rfl

/-- C10 witness: a run whose `/me` response is 2xx JSON without an `id`,
with every later request succeeding. -/
theorem me_missing_id_runs_with_none_userid_witness :
    createUrl Option.none = "https://graph.threads.net/v1.0/None/threads" ∧
    publishUrl Option.none = "https://graph.threads.net/v1.0/None/threads_publish" ∧
    2 ≤ (post_to_threads ⟨some "single", some "m", Option.none⟩ [] "u" "t"
      (fun n => if n = 0 then HttpResp.response true (some Option.none) "{}"
        else okIdResp "c")).trace.length ∧
    (post_to_threads ⟨some "single", some "m", Option.none⟩ [] "u" "t"
      (fun n => if n = 0 then HttpResp.response true (some Option.none) "{}"
        else okIdResp "c")).trace.get? 0 = some (ApiCall.getMe meUrl "t") ∧
    (∀ c ∈ (post_to_threads ⟨some "single", some "m", Option.none⟩ [] "u" "t"
        (fun n => if n = 0 then HttpResp.response true (some Option.none) "{}"
          else okIdResp "c")).trace,
      c = ApiCall.getMe meUrl "t" ∨
      urlOf c = createUrl Option.none ∨ urlOf c = publishUrl Option.none) :=
  me_missing_id_runs_with_none_userid ⟨some "single", some "m", Option.none⟩ [] "u" "t"
    "{}" (fun n => if n = 0 then HttpResp.response true (some Option.none) "{}"
      else okIdResp "c") rfl

/-! ## Claim C7 — root failure aborts with no further calls (confirmed) -/

/-- C7: if the root container phase yields a falsy container id, or the root
container publication yields a falsy post id, `post_to_threads` reports
failure (`False`) and performs no further posting calls: the trace ends right
there, and up to that point it holds only the user resolution, unanchored
container creations (so no reply and no citation container was ever created)
and — in the publish-failure case — the single root publication. -/
theorem root_failure_aborts (data : PostData) (imgs : List String) (src tok : String)
    (ω : Nat → HttpResp) (uid : Option String) (co : Option String) (s2 : NetState)
    (hme : meOutcome (ω 0) = some uid)
    (hroot : rootContainerPhase data imgs uid tok ⟨ω, 1, [ApiCall.getMe meUrl tok]⟩ =
      (Except.ok co, s2)) :
    (truthy co = false →
      post_to_threads data imgs src tok ω =
        { result := Except.ok false, trace := s2.trace }) ∧
    (∀ po, truthy co = true → publishResult (ω s2.idx) = Except.ok po →
      truthy po = false →
      post_to_threads data imgs src tok ω =
        { result := Except.ok false,
          trace := s2.trace ++
            [ApiCall.publishContainer (publishUrl uid) tok (co.getD "")] }) ∧
    (∀ c ∈ s2.trace, c = ApiCall.getMe meUrl tok ∨
      ∃ url ps, c = ApiCall.createContainer url ps ∧ ps.reply_to_id = Option.none) := by
  rcases rootPhase_ext data imgs uid tok ⟨ω, 1, [ApiCall.getMe meUrl tok]⟩ with
    ⟨resR, extR, heqR, hmemR, _, _⟩
  rw [hroot] at heqR
  injection heqR with hres hst
  subst hst
  refine ⟨?_, ?_, ?_⟩
  · intro hco
    rw [post_to_threads_unfold data imgs src tok ω uid hme, hroot]
    simp [hco]
  · intro po htc hpr hpo
    rw [post_to_threads_unfold data imgs src tok ω uid hme, hroot]
    simp [htc, publishContainerRun_def, hpr, hpo, Bool.false_eq_true, if_false]
  · intro c hc
    have hc2 : c ∈ [ApiCall.getMe meUrl tok] ++ extR := hc
    rcases List.mem_append.mp hc2 with h | h
    · exact Or.inl (mem_singleton_cases h)
    · rcases hmemR c h with ⟨ps, hps, hanc⟩
      exact Or.inr ⟨_, _, hps, hanc⟩

/-- C7 witness: a run whose root container creation gets a non-2xx response
reports `False` with a trace of exactly the user resolution and the single
root creation attempt. -/
theorem root_failure_aborts_witness :
    truthy (Option.none : Option String) = false ∧
    post_to_threads ⟨some "single", some "m", Option.none⟩ [] "u" "t"
        (fun n => if n = 1 then errResp else okIdResp "U") =
      { result := Except.ok false,
        trace := [ApiCall.getMe meUrl "t",
          ApiCall.createContainer (createUrl (some "U"))
            (createParams "t" "m" Option.none Option.none false Option.none)] } :=
  ⟨rfl,
    (root_failure_aborts ⟨some "single", some "m", Option.none⟩ [] "u" "t"
      (fun n => if n = 1 then errResp else okIdResp "U") (some "U") Option.none
      ⟨fun n => if n = 1 then errResp else okIdResp "U", 2,
        [ApiCall.getMe meUrl "t",
          ApiCall.createContainer (createUrl (some "U"))
            (createParams "t" "m" Option.none Option.none false Option.none)]⟩
      rfl rfl).1 rfl⟩

/-! ## Claim C1 — terminal outcome (corrected) -/

lemma replyLoop_oracle (uid : Option String) (tok : String) (imgs : List String)
    (rs : List String) (s : NetState) (i : Nat) (last : String) :
    (replyLoop uid tok imgs s i last rs).2.oracle = s.oracle := by
  rcases replyLoop_ext uid tok imgs rs s i last with ⟨res, ext, heq, _, _⟩
  rw [heq]

lemma replyLoop_ok (uid : Option String) (tok : String) (imgs : List String)
    (rs : List String) (s : NetState) (i : Nat) (last : String)
    (hnt : NoTransportError s.oracle) :
    ∃ l, (replyLoop uid tok imgs s i last rs).1 = Except.ok l := by
  rcases replyLoop_ext uid tok imgs rs s i last with ⟨res, ext, heq, _, hok⟩
  rw [heq]
  exact hok hnt

/-- If the reply loop cannot raise, the tail of the pipeline — reply loop
followed by the always-attempted citation phase — reports `True`. -/
lemma tail_result_ok (uid : Option String) (tok src : String)
    (rl : Except PyError String × NetState) (hnt : NoTransportError rl.2.oracle)
    (hok : ∃ l, rl.1 = Except.ok l) :
    (match rl.1 with
     | Except.error e => ({ result := Except.error e, trace := rl.2.trace } : RunOutcome)
     | Except.ok last_post_id => citationPhase uid tok src last_post_id rl.2).result =
      Except.ok true := by
  rcases rl with ⟨res, st⟩
  rcases hok with ⟨l, hl⟩
  simp only at hl hnt ⊢
  subst hl
  rcases citationPhase_ext uid tok src l st with ⟨resC, extC, heqC, _, hokC⟩
  show (citationPhase uid tok src l st).result = Except.ok true
  rw [heqC]
  simp [hokC hnt]

/-- C1 counterexample: `post_to_threads` reports only a Boolean to its
caller. A fully successful Multi run (all nine requests succeed: five posts
published) and a partial run in which reply 1's container creation fails
after the root was published (only three requests beyond user resolution
reach a post; reply 2 is skipped) both return the very same value `True`:
the terminal outcome does not distinguish full success from partial success,
and no published-post count and no abort stage is reported. -/
theorem boolean_outcome_counterexample :
    (post_to_threads ⟨some "multi", some "R", some ["A", "B"]⟩ [] "u" "t"
        (okOracle fun _ => "p")).result = Except.ok true ∧
    (post_to_threads ⟨some "multi", some "R", some ["A", "B"]⟩ [] "u" "t"
        (fun n => if n = 3 then errResp else okIdResp "p")).result = Except.ok true ∧
    (post_to_threads ⟨some "multi", some "R", some ["A", "B"]⟩ [] "u" "t"
        (okOracle fun _ => "p")).trace.length = 9 ∧
    (post_to_threads ⟨some "multi", some "R", some ["A", "B"]⟩ [] "u" "t"
        (fun n => if n = 3 then errResp else okIdResp "p")).trace.length = 6 :=
  ⟨rfl, rfl, rfl, rfl⟩

/-- C1 (amended): the terminal outcome `post_to_threads` reports is a single
Boolean, not a three-way value: on an oracle without transport errors, the
run returns `False` exactly when it aborts before the root post is published
(falsy root container creation, or falsy root publication — besides the
user-resolution failure), and `True` in every other case, including runs
where a reply or the citation failed after the root was published; partial
successes are therefore reported identically to full successes, with no
published-post count and no abort stage. -/
theorem boolean_outcome_amended (data : PostData) (imgs : List String)
    (src tok : String) (ω : Nat → HttpResp) (uid : Option String)
    (co : Option String) (s2 : NetState)
    (hnt : NoTransportError ω)
    (hme : meOutcome (ω 0) = some uid)
    (hroot : rootContainerPhase data imgs uid tok ⟨ω, 1, [ApiCall.getMe meUrl tok]⟩ =
      (Except.ok co, s2)) :
    (truthy co = false →
      (post_to_threads data imgs src tok ω).result = Except.ok false) ∧
    (∀ po, truthy co = true → publishResult (ω s2.idx) = Except.ok po →
      (truthy po = false →
        (post_to_threads data imgs src tok ω).result = Except.ok false) ∧
      (truthy po = true →
        (post_to_threads data imgs src tok ω).result = Except.ok true)) := by
  rcases rootPhase_ext data imgs uid tok ⟨ω, 1, [ApiCall.getMe meUrl tok]⟩ with
    ⟨resR, extR, heqR, _, _, _⟩
  rw [hroot] at heqR
  injection heqR with hres hst
  subst hst
  refine ⟨?_, ?_⟩
  · intro hco
    rw [post_to_threads_unfold data imgs src tok ω uid hme, hroot]
    simp [hco]
  · intro po htc hpr
    refine ⟨?_, ?_⟩
    · intro hpo
      rw [post_to_threads_unfold data imgs src tok ω uid hme, hroot]
      simp [htc, publishContainerRun_def, hpr, hpo, Bool.false_eq_true, if_false]
    · intro hpo
      rw [post_to_threads_unfold data imgs src tok ω uid hme, hroot]
      simp only [htc, if_true, publishContainerRun_def, hpr, hpo]
      apply tail_result_ok
      · by_cases hm : data.type_field = some "multi"
        · rw [if_pos hm, replyLoop_oracle]
          exact hnt
        · rw [if_neg hm]
          exact hnt
      · by_cases hm : data.type_field = some "multi"
        · rw [if_pos hm]
          exact replyLoop_ok uid tok imgs _ _ 0 _ hnt
        · rw [if_neg hm]
          exact ⟨_, rfl⟩

/-- C1 amended witness: a concrete run with the root published (responses 0,
1, 2 succeed) and a later reply failure still reports `True`. -/
theorem boolean_outcome_amended_witness :
    truthy (some "p") = true ∧
    publishResult ((fun n => if n = 3 then errResp else okIdResp "p") 2) =
      Except.ok (some "p") ∧
    (post_to_threads ⟨some "multi", some "R", some ["A", "B"]⟩ [] "u" "t"
        (fun n => if n = 3 then errResp else okIdResp "p")).result = Except.ok true :=
  ⟨rfl, rfl,
    ((boolean_outcome_amended ⟨some "multi", some "R", some ["A", "B"]⟩ [] "u" "t"
      (fun n => if n = 3 then errResp else okIdResp "p") (some "p") (some "p")
      ⟨fun n => if n = 3 then errResp else okIdResp "p", 2,
        [ApiCall.getMe meUrl "t",
          ApiCall.createContainer (createUrl (some "p"))
            (createParams "t" "R" Option.none Option.none false Option.none)]⟩
      (by intro n; by_cases h : n = 3 <;> simp [h, errResp, okIdResp]) rfl rfl).2
      (some "p") rfl rfl).2 rfl⟩

/-! ## Claim C8 — reply failure: skip the rest, still cite (confirmed) -/

/-- A fully successful prefix of the reply loop: after `xs` succeed, the loop
continues with `ys` from the advanced state with the last published id. -/
lemma replyLoop_append_success (uid : Option String) (tok : String) (imgs : List String)
    (idf : Nat → String) (hid : ∀ n, idf n ≠ "") (xs : List String) :
    ∀ (s : NetState) (i : Nat) (last : String) (ys : List String),
      (∀ m, m < 2 * xs.length → s.oracle (s.idx + m) = okIdResp (idf (s.idx + m))) →
      replyLoop uid tok imgs s i last (xs ++ ys) =
        replyLoop uid tok imgs
          ⟨s.oracle, s.idx + 2 * xs.length,
           s.trace ++ chainCalls uid tok imgs idf i s.idx last xs⟩
          (i + xs.length) (chainLast idf s.idx last xs) ys := by
  induction xs with
  | nil =>
    intro s i last ys _
    simp [chainCalls, chainLast]
  | cons x xs ih =>
    intro s i last ys hw
    have hL : (x :: xs).length = xs.length + 1 := rfl
    have h0 : s.oracle s.idx = okIdResp (idf s.idx) := by
      simpa using hw 0 (by rw [hL]; omega)
    have h1 : s.oracle (s.idx + 1) = okIdResp (idf (s.idx + 1)) :=
      hw 1 (by rw [hL]; omega)
    have ht0 : truthy (some (idf s.idx)) = true := (truthy_some_iff _).mpr (hid s.idx)
    have ht1 : truthy (some (idf (s.idx + 1))) = true :=
      (truthy_some_iff _).mpr (hid (s.idx + 1))
    have hrec := ih ⟨s.oracle, s.idx + 2,
        s.trace ++ [ApiCall.createContainer (createUrl uid)
            (createParams tok x (imgs.get? (i + 1)) (some last) false Option.none),
          ApiCall.publishContainer (publishUrl uid) tok (idf s.idx)]⟩
        (i + 1) (idf (s.idx + 1)) ys ?window
    case window =>
      intro m hm
      have := hw (m + 2) (by rw [hL]; omega)
      have harith : s.idx + (m + 2) = s.idx + 2 + m := by omega
      rwa [harith] at this
    show replyLoop uid tok imgs s i last ((x :: xs) ++ ys) = _
    rw [List.cons_append]
    simp only [replyLoop, createContainerRun_def, publishContainerRun_def, h0, h1,
      publishResult_eq_containerResult, containerResult_okIdResp, Option.getD_some,
      List.append_assoc, List.singleton_append, List.cons_append, List.nil_append]
    rw [if_pos ht0, if_pos ht1]
    rw [show s.idx + 1 + 1 = s.idx + 2 from by omega]
    rw [hrec]
    congr 1
    · simp only [NetState.mk.injEq, chainCalls, List.append_assoc, List.cons_append,
        List.singleton_append, List.length_cons]
      exact ⟨trivial, by omega, by simp⟩
    · omega

/-- The reply loop stops right away when the head reply's container creation
is falsy, returning the incoming last id. -/
lemma replyLoop_fail_create (uid : Option String) (tok : String) (imgs : List String)
    (s : NetState) (i : Nat) (last r : String) (rest : List String) (co : Option String)
    (hcf : containerResult (s.oracle s.idx) = Except.ok co) (hco : truthy co = false) :
    replyLoop uid tok imgs s i last (r :: rest) =
      (Except.ok last, ⟨s.oracle, s.idx + 1, s.trace ++
        [ApiCall.createContainer (createUrl uid)
          (createParams tok r (imgs.get? (i + 1)) (some last) false Option.none)]⟩) := by
  rw [replyLoop, createContainerRun_def, hcf]
  simp [hco, Bool.false_eq_true, if_false]

/-- The reply loop stops right away when the head reply's publication is
falsy, returning the incoming last id. -/
lemma replyLoop_fail_publish (uid : Option String) (tok : String) (imgs : List String)
    (s : NetState) (i : Nat) (last r : String) (rest : List String) (cid : String)
    (po : Option String)
    (hcf : containerResult (s.oracle s.idx) = Except.ok (some cid)) (hcid : cid ≠ "")
    (hpf : publishResult (s.oracle (s.idx + 1)) = Except.ok po) (hpo : truthy po = false) :
    replyLoop uid tok imgs s i last (r :: rest) =
      (Except.ok last, ⟨s.oracle, s.idx + 1 + 1, s.trace ++
        [ApiCall.createContainer (createUrl uid)
          (createParams tok r (imgs.get? (i + 1)) (some last) false Option.none),
         ApiCall.publishContainer (publishUrl uid) tok cid]⟩) := by
  rw [replyLoop, createContainerRun_def, hcf]
  simp [(truthy_some_iff cid).mpr hcid, publishContainerRun_def, hpf, hpo,
    Bool.false_eq_true, if_false, List.append_assoc]

/-- A fully successful citation phase. -/
lemma citationPhase_success (uid : Option String) (tok src last : String) (s : NetState)
    (c2 : String) (po : Option String)
    (h1 : containerResult (s.oracle s.idx) = Except.ok (some c2)) (hc2 : c2 ≠ "")
    (h2 : publishResult (s.oracle (s.idx + 1)) = Except.ok po) :
    citationPhase uid tok src last s =
      { result := Except.ok true,
        trace := s.trace ++
          [ApiCall.createContainer (createUrl uid)
            (createParams tok ("출처: " ++ src) Option.none (some last) false Option.none),
           ApiCall.publishContainer (publishUrl uid) tok c2] } := by
  unfold citationPhase
  rw [createContainerRun_def, h1]
  simp [(truthy_some_iff c2).mpr hc2, publishContainerRun_def, h2, List.append_assoc]

/-- C8: if creation or publication of reply `i` fails after the root was
published (here: the replies are `pre ++ r :: post2` with everything through
the `pre` prefix succeeding and `r` failing), the publisher never attempts
any remaining reply — the trace holds no request for `post2` — yet still
attempts the citation post anchored (`reply_to_id`) to the id of the last
successfully published post, which is the root's id when `pre = []`. The
first conjunct covers a falsy creation of `r`, the second a falsy
publication of `r`. -/
theorem reply_failure_skips_rest_and_cites (root src tok r : String)
    (pre post2 imgs : List String) (ω : Nat → HttpResp) (idf : Nat → String)
    (hid : ∀ n, idf n ≠ "")
    (hpre : ∀ m, m < 3 + 2 * pre.length → ω m = okIdResp (idf m)) :
    (∀ co c2 po,
      containerResult (ω (3 + 2 * pre.length)) = Except.ok co → truthy co = false →
      containerResult (ω (3 + 2 * pre.length + 1)) = Except.ok (some c2) → c2 ≠ "" →
      publishResult (ω (3 + 2 * pre.length + 1 + 1)) = Except.ok po →
      post_to_threads ⟨some "multi", some root, some (pre ++ r :: post2)⟩ imgs src tok ω =
        { result := Except.ok true,
          trace := ApiCall.getMe meUrl tok ::
            ApiCall.createContainer (createUrl (some (idf 0)))
              (createParams tok root imgs.head? Option.none false Option.none) ::
            ApiCall.publishContainer (publishUrl (some (idf 0))) tok (idf 1) ::
            (chainCalls (some (idf 0)) tok imgs idf 0 3 (idf 2) pre ++
              [ApiCall.createContainer (createUrl (some (idf 0)))
                  (createParams tok r (imgs.get? (pre.length + 1))
                    (some (chainLast idf 3 (idf 2) pre)) false Option.none),
                ApiCall.createContainer (createUrl (some (idf 0)))
                  (specPostParams tok ("출처: " ++ src) Option.none
                    (some (chainLast idf 3 (idf 2) pre))),
                ApiCall.publishContainer (publishUrl (some (idf 0))) tok c2]) }) ∧
    (∀ cid q c2 po,
      containerResult (ω (3 + 2 * pre.length)) = Except.ok (some cid) → cid ≠ "" →
      publishResult (ω (3 + 2 * pre.length + 1)) = Except.ok q → truthy q = false →
      containerResult (ω (3 + 2 * pre.length + 1 + 1)) = Except.ok (some c2) → c2 ≠ "" →
      publishResult (ω (3 + 2 * pre.length + 1 + 1 + 1)) = Except.ok po →
      post_to_threads ⟨some "multi", some root, some (pre ++ r :: post2)⟩ imgs src tok ω =
        { result := Except.ok true,
          trace := ApiCall.getMe meUrl tok ::
            ApiCall.createContainer (createUrl (some (idf 0)))
              (createParams tok root imgs.head? Option.none false Option.none) ::
            ApiCall.publishContainer (publishUrl (some (idf 0))) tok (idf 1) ::
            (chainCalls (some (idf 0)) tok imgs idf 0 3 (idf 2) pre ++
              [ApiCall.createContainer (createUrl (some (idf 0)))
                  (createParams tok r (imgs.get? (pre.length + 1))
                    (some (chainLast idf 3 (idf 2) pre)) false Option.none),
                ApiCall.publishContainer (publishUrl (some (idf 0))) tok cid,
                ApiCall.createContainer (createUrl (some (idf 0)))
                  (specPostParams tok ("출처: " ++ src) Option.none
                    (some (chainLast idf 3 (idf 2) pre))),
                ApiCall.publishContainer (publishUrl (some (idf 0))) tok c2]) }) := by
  have hme : meOutcome (ω 0) = some (some (idf 0)) := by
    rw [hpre 0 (by omega)]
    rfl
  have hc1 : containerResult (ω 1) = Except.ok (some (idf 1)) := by
    rw [hpre 1 (by omega)]
    rfl
  have hc2r : publishResult (ω 2) = Except.ok (some (idf 2)) := by
    rw [hpre 2 (by omega)]
    rfl
  have ht : ∀ n, truthy (some (idf n)) = true := fun n => (truthy_some_iff _).mpr (hid n)
  have hlastne : chainLast idf 3 (idf 2) pre ≠ "" :=
    chainLast_ne_empty idf hid pre 3 (idf 2) (hid 2)
  have hcitbr := createParams_std_spec tok ("출처: " ++ src) Option.none
      (some (chainLast idf 3 (idf 2) pre)) (fun u hu => absurd hu (by simp))
      (fun a ha => by rw [Option.some.injEq] at ha; subst ha; exact hlastne)
  have hrl0 := replyLoop_append_success (some (idf 0)) tok imgs idf hid pre
      ⟨ω, 3, [ApiCall.getMe meUrl tok,
        ApiCall.createContainer (createUrl (some (idf 0)))
          (createParams tok root imgs.head? Option.none false Option.none),
        ApiCall.publishContainer (publishUrl (some (idf 0))) tok (idf 1)]⟩
      0 (idf 2) (r :: post2) ?window
  case window =>
    intro m hm
    exact hpre (3 + m) (by omega)
  constructor
  · intro co c2 po hcf hco hcc hc2ne hcp
    have hfail := replyLoop_fail_create (some (idf 0)) tok imgs
        ⟨ω, 3 + 2 * pre.length,
          ApiCall.getMe meUrl tok ::
            ApiCall.createContainer (createUrl (some (idf 0)))
              (createParams tok root imgs.head? Option.none false Option.none) ::
            ApiCall.publishContainer (publishUrl (some (idf 0))) tok (idf 1) ::
            chainCalls (some (idf 0)) tok imgs idf 0 3 (idf 2) pre⟩
        (0 + pre.length) (chainLast idf 3 (idf 2) pre) r post2 co hcf hco
    have hcite := citationPhase_success (some (idf 0)) tok src
        (chainLast idf 3 (idf 2) pre)
        ⟨ω, 3 + 2 * pre.length + 1,
          (ApiCall.getMe meUrl tok ::
            ApiCall.createContainer (createUrl (some (idf 0)))
              (createParams tok root imgs.head? Option.none false Option.none) ::
            ApiCall.publishContainer (publishUrl (some (idf 0))) tok (idf 1) ::
            chainCalls (some (idf 0)) tok imgs idf 0 3 (idf 2) pre) ++
            [ApiCall.createContainer (createUrl (some (idf 0)))
              (createParams tok r (imgs.get? (0 + pre.length + 1))
                (some (chainLast idf 3 (idf 2) pre)) false Option.none)]⟩
        c2 po hcc hc2ne hcp
    simp at hrl0 hfail hcite
    simp [post_to_threads, rootContainerPhase, callNet, createContainerRun_def,
      publishContainerRun_def, hme, hc1, hc2r, ht, hrl0, hfail, hcite, hcitbr,
      Option.getD_some]
  · intro cid q c2 po hcf hcid hpq hq hcc hc2ne hcp
    have hfail := replyLoop_fail_publish (some (idf 0)) tok imgs
        ⟨ω, 3 + 2 * pre.length,
          ApiCall.getMe meUrl tok ::
            ApiCall.createContainer (createUrl (some (idf 0)))
              (createParams tok root imgs.head? Option.none false Option.none) ::
            ApiCall.publishContainer (publishUrl (some (idf 0))) tok (idf 1) ::
            chainCalls (some (idf 0)) tok imgs idf 0 3 (idf 2) pre⟩
        (0 + pre.length) (chainLast idf 3 (idf 2) pre) r post2 cid q hcf hcid hpq hq
    have hcite := citationPhase_success (some (idf 0)) tok src
        (chainLast idf 3 (idf 2) pre)
        ⟨ω, 3 + 2 * pre.length + 1 + 1,
          (ApiCall.getMe meUrl tok ::
            ApiCall.createContainer (createUrl (some (idf 0)))
              (createParams tok root imgs.head? Option.none false Option.none) ::
            ApiCall.publishContainer (publishUrl (some (idf 0))) tok (idf 1) ::
            chainCalls (some (idf 0)) tok imgs idf 0 3 (idf 2) pre) ++
            [ApiCall.createContainer (createUrl (some (idf 0)))
              (createParams tok r (imgs.get? (0 + pre.length + 1))
                (some (chainLast idf 3 (idf 2) pre)) false Option.none),
             ApiCall.publishContainer (publishUrl (some (idf 0))) tok cid]⟩
        c2 po hcc hc2ne hcp
    simp at hrl0 hfail hcite
    simp [post_to_threads, rootContainerPhase, callNet, createContainerRun_def,
      publishContainerRun_def, hme, hc1, hc2r, ht, hrl0, hfail, hcite, hcitbr,
      Option.getD_some]

/-- C8 witness: replies ["A","B","C"] with "A" succeeding and "B" failing —
once at container creation (oracle failing at request 5), once at publication
(oracle failing at request 6). In both runs no request for "C" appears and the
citation is still posted, anchored to the last published id. -/
theorem reply_failure_skips_rest_and_cites_witness :
    (post_to_threads ⟨some "multi", some "R", some (["A"] ++ "B" :: ["C"])⟩ [] "u" "t"
        (fun n => if n = 5 then errResp else okIdResp "p") =
      { result := Except.ok true,
        trace := ApiCall.getMe meUrl "t" ::
          ApiCall.createContainer (createUrl (some "p"))
            (createParams "t" "R" Option.none Option.none false Option.none) ::
          ApiCall.publishContainer (publishUrl (some "p")) "t" "p" ::
          (chainCalls (some "p") "t" [] (fun _ => "p") 0 3 "p" ["A"] ++
            [ApiCall.createContainer (createUrl (some "p"))
                (createParams "t" "B" Option.none
                  (some (chainLast (fun _ => "p") 3 "p" ["A"])) false Option.none),
              ApiCall.createContainer (createUrl (some "p"))
                (specPostParams "t" ("출처: " ++ "u") Option.none
                  (some (chainLast (fun _ => "p") 3 "p" ["A"]))),
              ApiCall.publishContainer (publishUrl (some "p")) "t" "p"]) }) ∧
    (post_to_threads ⟨some "multi", some "R", some (["A"] ++ "B" :: ["C"])⟩ [] "u" "t"
        (fun n => if n = 6 then errResp else okIdResp "p") =
      { result := Except.ok true,
        trace := ApiCall.getMe meUrl "t" ::
          ApiCall.createContainer (createUrl (some "p"))
            (createParams "t" "R" Option.none Option.none false Option.none) ::
          ApiCall.publishContainer (publishUrl (some "p")) "t" "p" ::
          (chainCalls (some "p") "t" [] (fun _ => "p") 0 3 "p" ["A"] ++
            [ApiCall.createContainer (createUrl (some "p"))
                (createParams "t" "B" Option.none
                  (some (chainLast (fun _ => "p") 3 "p" ["A"])) false Option.none),
              ApiCall.publishContainer (publishUrl (some "p")) "t" "p",
              ApiCall.createContainer (createUrl (some "p"))
                (specPostParams "t" ("출처: " ++ "u") Option.none
                  (some (chainLast (fun _ => "p") 3 "p" ["A"]))),
              ApiCall.publishContainer (publishUrl (some "p")) "t" "p"]) }) :=
  ⟨(reply_failure_skips_rest_and_cites "R" "u" "t" "B" ["A"] ["C"] []
      (fun n => if n = 5 then errResp else okIdResp "p") (fun _ => "p")
      (fun n => by show ("p" : String) ≠ ""; decide)
      (by
        intro m hm
        have hm5 : m < 5 := by simpa using hm
        show (if m = 5 then errResp else okIdResp "p") = okIdResp "p"
        rw [if_neg (by omega)])).1
    Option.none "p" (some "p") rfl rfl rfl (by decide) rfl,
   (reply_failure_skips_rest_and_cites "R" "u" "t" "B" ["A"] ["C"] []
      (fun n => if n = 6 then errResp else okIdResp "p") (fun _ => "p")
      (fun n => by show ("p" : String) ≠ ""; decide)
      (by
        intro m hm
        have hm5 : m < 5 := by simpa using hm
        show (if m = 6 then errResp else okIdResp "p") = okIdResp "p"
        rw [if_neg (by omega)])).2
    "p" Option.none "p" (some "p") rfl (by decide) rfl rfl rfl (by decide) rfl⟩

/-! ## Claim C4 — fully successful Multi chain (confirmed) -/

/-- C4: for Multi content with replies `r_1..r_k` and image list `imgs` on the
non-carousel path, a fully successful run of `post_to_threads` creates and
publishes containers in the order root, `r_1`, …, `r_k`, citation, where the
root carries `imgs[0]` if present else no image, reply `i` (1-based) carries
`imgs[i]` if it exists else no image, images beyond index `k` are unused, the
citation carries no image, and every container after the root is anchored via
`reply_to_id` to the id of the immediately preceding published post. All of
this is expressed by the trace coinciding with the spec-prescribed
`specMultiRunTrace`. Image urls are assumed non-empty (an empty-string url
would be falsy for Python). -/
theorem post_multi_success_chain (root src tok : String) (replies imgs : List String)
    (idf : Nat → String) (hid : ∀ n, idf n ≠ "") (himgs : ∀ u ∈ imgs, u ≠ "") :
    post_to_threads ⟨some "multi", some root, some replies⟩ imgs src tok (okOracle idf) =
      { result := Except.ok true,
        trace := specMultiRunTrace root replies imgs src tok idf } := by
  have ht : ∀ n, truthy (some (idf n)) = true := fun n => (truthy_some_iff _).mpr (hid n)
  have hrl := replyLoop_success (some (idf 0)) tok imgs idf hid replies
      ⟨okOracle idf, 3, [ApiCall.getMe meUrl tok,
        ApiCall.createContainer (createUrl (some (idf 0)))
          (createParams tok root imgs.head? Option.none false Option.none),
        ApiCall.publishContainer (publishUrl (some (idf 0))) tok (idf 1)]⟩
      0 (idf 2) (fun m _ => rfl)
  have hroot : createParams tok root imgs.head? Option.none false Option.none =
      specPostParams tok root imgs.head? Option.none :=
    createParams_std_spec tok root imgs.head? Option.none
      (fun u hu => himgs u (List.get?_mem (by rwa [List.get?_zero])))
      (fun a ha => absurd ha (by simp))
  have hlastne : chainLast idf 3 (idf 2) replies ≠ "" :=
    chainLast_ne_empty idf hid replies 3 (idf 2) (hid 2)
  have hcit : createParams tok ("출처: " ++ src) Option.none
      (some (chainLast idf 3 (idf 2) replies)) false Option.none =
      specPostParams tok ("출처: " ++ src) Option.none
        (some (chainLast idf 3 (idf 2) replies)) :=
    createParams_std_spec tok ("출처: " ++ src) Option.none _
      (fun u hu => absurd hu (by simp))
      (fun a ha => by rw [Option.some.injEq] at ha; subst ha; exact hlastne)
  have hchain : chainCalls (some (idf 0)) tok imgs idf 0 3 (idf 2) replies =
      specReplyCalls (some (idf 0)) tok imgs idf 0 3 (idf 2) replies :=
    chainCalls_eq_spec (some (idf 0)) tok imgs idf himgs hid replies 0 3 (idf 2) (hid 2)
  have htr : truthy (some (chainLast idf 3 (idf 2) replies)) = true :=
    (truthy_some_iff _).mpr hlastne
  simp at hrl
  simp [post_to_threads, rootContainerPhase, citationPhase, callNet, meOutcome,
    okOracle, okIdResp, containerResult, publishResult, createContainerRun_def,
    publishContainerRun_def, ht, hrl, htr, Option.getD_some]
  simp [specMultiRunTrace, hroot, hcit, hchain]

/-- C4 witness: the spec's end-to-end scenario — Multi content with root "R",
replies ["A","B"], two images, source url "http://x" — on an all-success
oracle. -/
theorem post_multi_success_chain_witness :
    post_to_threads ⟨some "multi", some "R", some ["A", "B"]⟩ ["i0", "i1"] "http://x" "t"
        (okOracle fun _ => "p") =
      { result := Except.ok true,
        trace := specMultiRunTrace "R" ["A", "B"] ["i0", "i1"] "http://x" "t"
          (fun _ => "p") } :=
  post_multi_success_chain "R" "http://x" "t" ["A", "B"] ["i0", "i1"] (fun _ => "p")
    (fun n => by show ("p" : String) ≠ ""; decide)
    (by intro u hu; fin_cases hu <;> decide)

end ThreadAuto
